import Mathlib

/-!
Verification development for the PPV system-health ingestion pipeline.

Strings from the Python source are modelled as `List Char` (named `Str`),
numbers as `ℚ` (Python floats restricted to the decimal fragment exercised
by the pipeline) and `ℤ`/`ℕ`, and Python exceptions as `Except` values whose
error type mirrors the repository's exception hierarchy
(`DataValidationError` / `BusinessRuleError` / `RuntimeParsingError` /
`ClassificationError` / `TypeError`).
-/

set_option autoImplicit false

namespace PPV

/-- Decidable equality for `Except`, so concrete runs of the fallible models
can be checked by `decide`. -/
instance {ε α : Type _} [DecidableEq ε] [DecidableEq α] :
    DecidableEq (Except ε α) := fun x y =>
  match x, y with
  | Except.ok a, Except.ok b =>
    if h : a = b then isTrue (by rw [h])
    else isFalse (fun hh => h (Except.ok.inj hh))
  | Except.error a, Except.error b =>
    if h : a = b then isTrue (by rw [h])
    else isFalse (fun hh => h (Except.error.inj hh))
  | Except.ok _, Except.error _ => isFalse (fun hh => Except.noConfusion hh)
  | Except.error _, Except.ok _ => isFalse (fun hh => Except.noConfusion hh)

/-- Strings are modelled as lists of characters. -/
abbrev Str := List Char

/-- Convenience coercion from Lean string literals to the model's strings. -/
def toL (s : String) : Str := s.toList

/-- ASCII whitespace, modelling the characters removed by Python `str.strip()`
(the source only ever strips ASCII whitespace). -/
def isWs (c : Char) : Bool :=
  c = ' ' || c = '\t' || c = '\n' || c = '\r' || c = '\x0b' || c = '\x0c'

/-- Model of Python `str.strip()`: drop whitespace from both ends. -/
def trim (s : Str) : Str :=
  ((s.dropWhile isWs).reverse.dropWhile isWs).reverse

/-- Numeric value of a list of ASCII digit characters, most significant first. -/
def ofDigits (s : Str) : ℕ :=
  s.foldl (fun a c => 10 * a + (c.toNat - 48)) 0

/-- Model of Python `str.isdigit()` restricted to ASCII: nonempty and all
characters are decimal digits. -/
def pyIsDigit (s : Str) : Bool :=
  !s.isEmpty && s.all Char.isDigit

/-- Auxiliary splitter: `splitAux sep s acc` splits `s` at every occurrence of
`sep`, with `acc` holding the (reversed) chunk read so far. -/
def splitAux (sep : Char) : Str → Str → List Str
  | [], acc => [acc.reverse]
  | c :: rest, acc =>
    if c = sep then acc.reverse :: splitAux sep rest []
    else splitAux sep rest (c :: acc)

/-- Model of Python `str.split(sep)` for a one-character separator. -/
def splitOn (sep : Char) (s : Str) : List Str :=
  splitAux sep s []

/-- Model of Python `str.replace(c, "")`: remove every occurrence of `c`. -/
def removeAll (c : Char) (s : Str) : Str :=
  s.filter (fun x => x ≠ c)

/-- Core of the Python `float()` builtin on unsigned input, modelled over ℚ for
the decimal fragment the pipeline feeds it (digits and at most one dot;
exponents, `inf`/`nan`, underscores and surrounding whitespace do not occur in
the cleaned strings the source passes to `float`). -/
def pyFloatCore (s : Str) : Option ℚ :=
  if s.all (fun c => c.isDigit || c = '.')
      && s.count '.' ≤ 1 && s.any Char.isDigit then
    let ip := s.takeWhile (fun c => c ≠ '.')
    let fp := (s.dropWhile (fun c => c ≠ '.')).drop 1
    some ((ofDigits ip : ℚ) + (ofDigits fp : ℚ) / (10 : ℚ) ^ fp.length)
  else
    none

/-- Model of the Python `float()` builtin with an optional leading sign. -/
def pyFloat (s : Str) : Option ℚ :=
  match s with
  | [] => pyFloatCore []
  | c :: r =>
    if c = '-' then (pyFloatCore r).map (fun q => -q)
    else if c = '+' then pyFloatCore r
    else pyFloatCore (c :: r)

/-! ## Exception taxonomy (src/backend/app/exceptions.py)

`DataValidationError` and `BusinessRuleError` are distinct classes of the
unified hierarchy; the constructors below record the `validation_context`
respectively `business_rule` detail string each raise site supplies. -/

/-- The `validation_context` values used by `DataConverter` raise sites. -/
inductive ValCtx where
  | emptyStringCheck
  | usFormatConversion
  | integerFormatConversion
  | europeanDecimalFormat
  | decimalPartValidation
  | europeanFormatConversion
  | emptyImpressionGoal
  | integerFormatValidation
  deriving DecidableEq, Repr

/-- The `business_rule` values used by `DataConverter` raise sites. -/
inductive BizRule where
  | impressionGoalMinimum
  | impressionGoalMaximum
  deriving DecidableEq, Repr

/-- Errors raised by `DataConverter`: either a `DataValidationError` (format
error) or a `BusinessRuleError` (domain-constraint error). -/
inductive ConvErr where
  | dataValidation (ctx : ValCtx)
  | businessRule (rule : BizRule)
  deriving DecidableEq, Repr

/-! ## DataConverter (src/backend/app/services/data_conversion.py) -/

/-- The final `float(cleaned)` call of `_convert_european_format`, failing
with the `European_format_conversion` validation context. -/
def floatOrEuroErr (cleaned : Str) : Except ConvErr ℚ :=
  match pyFloat cleaned with
  | some q => Except.ok q
  | none => Except.error (ConvErr.dataValidation ValCtx.europeanFormatConversion)

/-- Model of `DataConverter._convert_european_format`: strip dots as thousands
separators, use the comma (if any) as the decimal separator, and parse. -/
def convertEuropeanFormat (value : Str) : Except ConvErr ℚ :=
  if value.contains ',' then
    match splitOn ',' value with
    | [integerPart, decimalPart] =>
      if pyIsDigit decimalPart then
        floatOrEuroErr (removeAll '.' integerPart ++ '.' :: decimalPart)
      else
        Except.error (ConvErr.dataValidation ValCtx.decimalPartValidation)
    | _ => Except.error (ConvErr.dataValidation ValCtx.europeanDecimalFormat)
  else
    floatOrEuroErr (removeAll '.' value)

/-- Model of `DataConverter.convert_european_decimal`: detect the separator
combination of the (stripped) input and dispatch as the source does. -/
def convert_european_decimal (value : Str) : Except ConvErr ℚ :=
  if (trim value).isEmpty then
    throw (ConvErr.dataValidation ValCtx.emptyStringCheck)
  else
    let cleaned := trim value
    if cleaned.contains ',' && cleaned.count '.' > 1 then
      convertEuropeanFormat cleaned
    else if cleaned.contains ',' && !cleaned.contains '.' then
      convertEuropeanFormat cleaned
    else if !cleaned.contains ',' && cleaned.contains '.' then
      match pyFloat cleaned with
      | some q => pure q
      | none => throw (ConvErr.dataValidation ValCtx.usFormatConversion)
    else if !cleaned.contains ',' && !cleaned.contains '.' then
      match pyFloat cleaned with
      | some q => pure q
      | none => throw (ConvErr.dataValidation ValCtx.integerFormatConversion)
    else
      convertEuropeanFormat cleaned

/-- Lower bound `MIN_IMPRESSION_GOAL` of `DataConverter`. -/
def MIN_IMPRESSION_GOAL : ℕ := 1

/-- Upper bound `MAX_IMPRESSION_GOAL` of `DataConverter`. -/
def MAX_IMPRESSION_GOAL : ℕ := 2000000000

/-- Model of `DataConverter.convert_impression_goal`: digits-only integer with
range validation; format violations raise `DataValidationError`, range
violations raise `BusinessRuleError`. -/
def convert_impression_goal (value : Str) : Except ConvErr ℕ :=
  if (trim value).isEmpty then
    throw (ConvErr.dataValidation ValCtx.emptyImpressionGoal)
  else
    let cleaned := trim value
    if !pyIsDigit cleaned then
      throw (ConvErr.dataValidation ValCtx.integerFormatValidation)
    else
      let v := ofDigits cleaned
      if v < MIN_IMPRESSION_GOAL then
        throw (ConvErr.businessRule BizRule.impressionGoalMinimum)
      else if v > MAX_IMPRESSION_GOAL then
        throw (ConvErr.businessRule BizRule.impressionGoalMaximum)
      else
        pure v

/-! ## RuntimeParser (src/backend/app/services/runtime_parser.py) -/

/-- A calendar date, modelling Python `datetime.date` values. -/
structure Date where
  year : ℕ
  month : ℕ
  day : ℕ
  deriving DecidableEq, Repr

/-- Whether `y` is a leap year (Gregorian rule, as in Python's calendar). -/
def isLeapYear (y : ℕ) : Bool :=
  y % 4 = 0 && (y % 100 ≠ 0 || y % 400 = 0)

/-- Number of days in month `m` of year `y` (months counted 1..12). -/
def daysInMonth (y m : ℕ) : ℕ :=
  if m = 2 then (if isLeapYear y then 29 else 28)
  else if m = 4 || m = 6 || m = 9 || m = 11 then 30
  else 31

/-- Validity of a `Date` as accepted by the Python `date` constructor
(`MINYEAR = 1`, `MAXYEAR = 9999`, calendar-correct month and day). -/
def dateValid (y m d : ℕ) : Bool :=
  1 ≤ y && y ≤ 9999 && 1 ≤ m && m ≤ 12 && 1 ≤ d && d ≤ daysInMonth y m

/-- Strict lexicographic order on dates, as Python compares `date` values. -/
def dateLtP (a b : Date) : Prop :=
  a.year < b.year ∨ (a.year = b.year ∧
    (a.month < b.month ∨ (a.month = b.month ∧ a.day < b.day)))

instance (a b : Date) : Decidable (dateLtP a b) := by
  unfold dateLtP; infer_instance

/-- Boolean strict comparison `a < b` on dates. -/
def dateLtB (a b : Date) : Bool := decide (dateLtP a b)

/-- Boolean comparison `a ≤ b` on dates. -/
def dateLeB (a b : Date) : Bool := dateLtB a b || decide (a = b)

/-- Model of `RuntimeParser._create_date`: construct a validated date or fail
as Python's `date(year, month, day)` does on calendar-invalid input. -/
def createDate (day month year : ℕ) : Option Date :=
  if dateValid year month day then some ⟨year, month, day⟩ else none

/-- Read one ASCII digit from the front of the input. -/
def readDigit : Str → Option (ℕ × Str)
  | c :: r => if c.isDigit then some (c.toNat - 48, r) else none
  | [] => none

/-- Read exactly two digits (`\d{2}` of the source regexes). -/
def read2 (s : Str) : Option (ℕ × Str) := do
  let (a, r) ← readDigit s
  let (b, r') ← readDigit r
  pure (10 * a + b, r')

/-- Read exactly four digits (`\d{4}` of the source regexes). -/
def read4 (s : Str) : Option (ℕ × Str) := do
  let (a, r) ← read2 s
  let (b, r') ← read2 r
  pure (100 * a + b, r')

/-- Consume one expected literal character. -/
def expectChar (c : Char) : Str → Option Str
  | x :: r => if x = c then some r else none
  | [] => none

/-- Read a `DD.MM.YYYY` date group, returning `(day, month, year, rest)`. -/
def readDmy (s : Str) : Option ((ℕ × ℕ × ℕ) × Str) := do
  let (d, r1) ← read2 s
  let r2 ← expectChar '.' r1
  let (m, r3) ← read2 r2
  let r4 ← expectChar '.' r3
  let (y, r5) ← read4 r4
  pure ((d, m, y), r5)

/-- Model of `ASAP_PATTERN = ^ASAP-(\d{2})\.(\d{2})\.(\d{4})$`: an anchored
match returning the captured `(day, month, year)`. -/
def matchAsap (s : Str) : Option (ℕ × ℕ × ℕ) := do
  let r1 ← expectChar 'A' s
  let r2 ← expectChar 'S' r1
  let r3 ← expectChar 'A' r2
  let r4 ← expectChar 'P' r3
  let r5 ← expectChar '-' r4
  let (dmy, rest) ← readDmy r5
  if rest.isEmpty then pure dmy else none

/-- Model of `STANDARD_PATTERN = ^(\d{2})\.(\d{2})\.(\d{4})-(\d{2})\.(\d{2})\.(\d{4})$`:
an anchored match returning both captured date groups. -/
def matchStandard (s : Str) : Option ((ℕ × ℕ × ℕ) × (ℕ × ℕ × ℕ)) := do
  let (dmy1, r1) ← readDmy s
  let r2 ← expectChar '-' r1
  let (dmy2, rest) ← readDmy r2
  if rest.isEmpty then pure (dmy1, dmy2) else none

/-- Errors raised by `RuntimeParser.parse`. All constructors except
`endNotAfterStart` model `RuntimeParsingError` (a runtime-format error);
`endNotAfterStart` models the `BusinessRuleError` raise.
`invalidFormat` carries the two `expected_patterns` strings named by the
raise at the end of `parse`; `invalidAsapDate`/`invalidStandardDate` carry the
offending date digits as the wrapped `original_error` cause. -/
inductive RtErr where
  | emptyRuntime
  | invalidFormat (expectedPatterns : List Str)
  | invalidAsapDate (dmy : ℕ × ℕ × ℕ)
  | invalidStandardDate (dmys : (ℕ × ℕ × ℕ) × (ℕ × ℕ × ℕ))
  | endNotAfterStart (startDate endDate : Date)
  deriving DecidableEq, Repr

/-- Whether an error is a `RuntimeParsingError` (format error) as opposed to a
`BusinessRuleError`. -/
def RtErr.isFormatError : RtErr → Bool
  | .endNotAfterStart _ _ => false
  | _ => true

/-- The two accepted patterns named by the fall-through raise in
`RuntimeParser.parse`. -/
def expectedPatterns : List Str :=
  [toL "ASAP-DD.MM.YYYY", toL "DD.MM.YYYY-DD.MM.YYYY"]

/-- Model of `ParseResult`: parsed start/end dates and the activity flag. -/
structure ParseResult where
  start_date : Option Date
  end_date : Date
  is_running : Bool
  deriving DecidableEq, Repr

/-- Model of `RuntimeParser._parse_asap_format`: ASAP campaigns have no start
date; `is_running` is `end_date >= current_date`. -/
def parseAsapFormat (dmy : ℕ × ℕ × ℕ) (currentDate : Date) :
    Except RtErr ParseResult :=
  match createDate dmy.1 dmy.2.1 dmy.2.2 with
  | none => throw (RtErr.invalidAsapDate dmy)
  | some endDate =>
    pure ⟨none, endDate, dateLeB currentDate endDate⟩

/-- Model of `RuntimeParser._parse_standard_format`: both dates are parsed,
`end_date <= start_date` raises a `BusinessRuleError`, and `is_running` is
`end_date >= current_date`. -/
def parseStandardFormat (dmys : (ℕ × ℕ × ℕ) × (ℕ × ℕ × ℕ))
    (currentDate : Date) : Except RtErr ParseResult :=
  match createDate dmys.1.1 dmys.1.2.1 dmys.1.2.2,
        createDate dmys.2.1 dmys.2.2.1 dmys.2.2.2 with
  | some startDate, some endDate =>
    if dateLeB endDate startDate then
      throw (RtErr.endNotAfterStart startDate endDate)
    else
      pure ⟨some startDate, endDate, dateLeB currentDate endDate⟩
  | _, _ => throw (RtErr.invalidStandardDate dmys)

/-- Model of `RuntimeParser.parse`: strip, reject empty input, try the ASAP
pattern, then the standard pattern, otherwise fail naming both patterns.
The wall-clock default of `current_date` is made an explicit parameter. -/
def RuntimeParser.parse (runtime : Str) (currentDate : Date) :
    Except RtErr ParseResult :=
  if (trim runtime).isEmpty then
    throw RtErr.emptyRuntime
  else
    let cleaned := trim runtime
    match matchAsap cleaned with
    | some dmy => parseAsapFormat dmy currentDate
    | none =>
      match matchStandard cleaned with
      | some dmys => parseStandardFormat dmys currentDate
      | none => throw (RtErr.invalidFormat expectedPatterns)

/-! ## CampaignClassifier (src/backend/app/services/campaign_classifier.py) -/

/-- The two classification labels of `CampaignType`. -/
inductive CampaignType where
  | campaign
  | deal
  deriving DecidableEq, Repr

/-- A Python value passed as the `buyer` argument: `None`, a string, or some
non-string object (the classifier only distinguishes these three cases). -/
inductive PyVal where
  | none
  | str (s : Str)
  | nonStr
  deriving DecidableEq, Repr

/-- Errors raised by `CampaignClassifier.classify`: `ClassificationError` for
`None` input, `TypeError` for non-string input. -/
inductive ClassifyErr where
  | classificationError
  | typeError
  deriving DecidableEq, Repr

/-- Model of `ClassificationResult` (type, confidence, reasoning). -/
structure ClassificationResult where
  campaign_type : CampaignType
  confidence : ℚ
  reasoning : Str
  deriving DecidableEq, Repr

/-- The sentinel `CAMPAIGN_BUYER_VALUE = "Not set"`. -/
def CAMPAIGN_BUYER_VALUE : Str := toL "Not set"

/-- Model of `CampaignClassifier.classify`: `None` raises
`ClassificationError`, a non-string raises `TypeError`, the exact sentinel
string yields `campaign`, and every other string yields `deal`. -/
def classify (buyer : PyVal) : Except ClassifyErr ClassificationResult :=
  match buyer with
  | PyVal.none => throw ClassifyErr.classificationError
  | PyVal.nonStr => throw ClassifyErr.typeError
  | PyVal.str s =>
    if s = CAMPAIGN_BUYER_VALUE then
      Except.ok ⟨CampaignType.campaign, 1,
        toL "Exact match: buyer = 'Not set'"⟩
    else
      Except.ok ⟨CampaignType.deal, 1,
        toL "Non-campaign buyer: '" ++ s ++ toL "'"⟩

/-- Model of `CampaignClassifier.is_campaign`: boolean classification that
catches `TypeError`/`ClassificationError` and defaults to `False`. -/
def is_campaign (buyer : PyVal) : Bool :=
  match classify buyer with
  | Except.ok r => r.campaign_type = CampaignType.campaign
  | Except.error _ => false

/-- Model of the statistics record returned by
`CampaignClassifier.get_campaign_statistics`. -/
structure CampaignStatistics where
  total_count : ℕ
  campaign_count : ℕ
  deal_count : ℕ
  campaign_percentage : ℚ
  deal_percentage : ℚ
  invalid_count : ℕ
  deriving DecidableEq, Repr

/-- The counting loop of `get_campaign_statistics`. Its `except` arm (which
would bump `invalid_count`) can never run because `is_campaign` catches all
classification errors internally, so each element bumps exactly one of the
campaign/deal counters. -/
def statsLoop (counts : ℕ × ℕ × ℕ) : List PyVal → ℕ × ℕ × ℕ
  | [] => counts
  | b :: rest =>
    if is_campaign b then statsLoop (counts.1 + 1, counts.2.1, counts.2.2) rest
    else statsLoop (counts.1, counts.2.1 + 1, counts.2.2) rest

/-- Model of `CampaignClassifier.get_campaign_statistics`. -/
def get_campaign_statistics (buyerList : List PyVal) : CampaignStatistics :=
  if buyerList.isEmpty then
    ⟨0, 0, 0, 0, 0, 0⟩
  else
    let (campaignCount, dealCount, invalidCount) := statsLoop (0, 0, 0) buyerList
    let totalValid := campaignCount + dealCount
    { total_count := buyerList.length
      campaign_count := campaignCount
      deal_count := dealCount
      campaign_percentage :=
        if totalValid > 0 then (campaignCount : ℚ) / totalValid * 100 else 0
      deal_percentage :=
        if totalValid > 0 then (dealCount : ℚ) / totalValid * 100 else 0
      invalid_count := invalidCount }

/-! ## Campaign model (src/backend/app/models/base.py, campaign.py) -/

/-- Model of Python `int(s)` on the decimal fragment the model feeds it:
optional sign, ASCII digits (underscore grouping is not modelled; the
pipeline never produces it). -/
def pyInt (s : Str) : Option ℤ :=
  match trim s with
  | '-' :: r => if pyIsDigit r then some (-(ofDigits r : ℤ)) else none
  | '+' :: r => if pyIsDigit r then some (ofDigits r : ℤ) else none
  | r => if pyIsDigit r then some (ofDigits r : ℤ) else none

/-- ASCII hexadecimal digit. -/
def isHexChar (c : Char) : Bool :=
  c.isDigit || ('a' ≤ c && c ≤ 'f') || ('A' ≤ c && c ≤ 'F')

/-- Reinsert the canonical 8-4-4-4-12 dashes of `str(uuid.UUID(...))`. -/
def uuidCanonical (hex32 : Str) : Str :=
  hex32.take 8 ++ '-' :: ((hex32.drop 8).take 4) ++ '-' ::
    ((hex32.drop 12).take 4) ++ '-' :: ((hex32.drop 16).take 4) ++ '-' ::
    (hex32.drop 20)

/-- Validation failures of `Campaign.__init__` (each is a `ValueError` raise
site in base.py / campaign.py). -/
inductive InitErr where
  | invalidUuid
  | impressionGoalOutOfRange
  | budgetNotPositive
  | cpmNotPositive
  | emptyName
  | emptyRuntime
  | runtimeParseFailed
  | buyerRequired
  deriving DecidableEq, Repr

/-- Model of `UUIDValidationMixin.validate_uuid`: Python's `uuid.UUID(s)`
removes dashes and accepts exactly 32 hexadecimal digits, and
`str(uuid_obj)` returns the lowercase dashed canonical form (the `urn:`/brace
variants Python also accepts never occur in this pipeline and are not
modelled). -/
def validate_uuid (s : Str) : Except InitErr Str :=
  if s.isEmpty then throw InitErr.invalidUuid
  else
    let hexs := removeAll '-' s
    if hexs.length = 32 && hexs.all isHexChar then
      pure (uuidCanonical (hexs.map Char.toLower))
    else throw InitErr.invalidUuid

/-- Model of `Campaign._parse_german_date`: strip, split on dots into exactly
three integer parts, and build a calendar-validated date (`DD.MM.YYYY`).
Failures are `ValueError`s, modelled as `none`. -/
def parseGermanDate (s : Str) : Option Date :=
  match splitOn '.' (trim s) with
  | [d, m, y] => do
    let di ← pyInt d
    let mi ← pyInt m
    let yi ← pyInt y
    if 0 ≤ yi ∧ 0 ≤ mi ∧ 0 ≤ di then
      createDate di.toNat mi.toNat yi.toNat
    else none
  | _ => none

/-- Model of Python `str.split(sep, 1)`: split at the first occurrence only. -/
def splitFirst (sep : Char) : Str → Option (Str × Str)
  | [] => none
  | c :: r =>
    if c = sep then some ([], r)
    else (splitFirst sep r).map (fun p => (c :: p.1, p.2))

/-- Model of `Campaign._parse_and_set_runtime_dates` together with the
`validate_date_logic` call it makes: returns the `(runtime_start,
runtime_end)` pair or `none` for any wrapped `ValueError`. Note this is the
Campaign model's own runtime parsing, distinct from `RuntimeParser`: it
allows `start = end` (only `start > end` is rejected). -/
def parseRuntimeDates (txt : Str) : Option (Option Date × Date) :=
  if (toL "ASAP-").isPrefixOf txt then
    (parseGermanDate (txt.drop 5)).map (fun e => (none, e))
  else if txt.contains '-' && !((toL "ASAP").isPrefixOf txt) then
    match splitFirst '-' txt with
    | some (startStr, endStr) => do
      let s ← parseGermanDate startStr
      let e ← parseGermanDate endStr
      if dateLtP e s then none else pure (some s, e)
    | none => none
  else none

/-- The keyword arguments accepted by `Campaign.__init__`; `none` models an
absent key. `buyer` distinguishes an absent key from an explicit `None`
value, which the constructor rejects. -/
structure CampaignKwargs where
  id : Option Str := none
  name : Option Str := none
  runtime : Option Str := none
  impression_goal : Option ℤ := none
  budget_eur : Option ℚ := none
  cpm_eur : Option ℚ := none
  cmp_eur : Option ℚ := none
  buyer : Option (Option Str) := none
  runtime_start : Option (Option Date) := none
  runtime_end : Option Date := none
  deriving DecidableEq, Repr

/-- The persisted `Campaign` entity's fields, as set by `__init__`. -/
structure Campaign where
  id : Option Str
  name : Option Str
  runtime : Option Str
  impression_goal : Option ℤ
  budget_eur : Option ℚ
  cpm_eur : Option ℚ
  buyer : Option Str
  runtime_start : Option Date
  runtime_end : Option Date
  is_running : Bool
  deriving DecidableEq, Repr

/-- Model of `Campaign._calculate_is_running`: running iff `runtime_end` is
strictly after the reference date (`end > today`); a missing end date
defaults to running. The wall-clock `date.today()` is an explicit
parameter. -/
def calculate_is_running (runtime_end : Option Date) (today : Date) : Bool :=
  match runtime_end with
  | none => true
  | some e => dateLtB today e

/-- Model of the `entity_type` hybrid property: `campaign` iff the stored
buyer equals the sentinel `"Not set"`. -/
def entity_type (c : Campaign) : CampaignType :=
  if c.buyer = some CAMPAIGN_BUYER_VALUE then CampaignType.campaign
  else CampaignType.deal

/-- Model of `Campaign.__init__`, following the source's validation order:
UUID, impression-goal range, budget positivity, the `cmp_eur` typo branch
(note the source never positivity-checks a value supplied under the correct
`cpm_eur` key), name, runtime parsing, buyer presence, then field assignment
and the `is_running` computation. -/
def campaignInit (today : Date) (k : CampaignKwargs) : Except InitErr Campaign := do
  let idNorm : Option Str ←
    match k.id with
    | some s => Except.map some (validate_uuid s)
    | none => pure none
  if let some g := k.impression_goal then
    if g < 1 ∨ g > 2000000000 then throw InitErr.impressionGoalOutOfRange
  if let some b := k.budget_eur then
    if b ≤ 0 then throw InitErr.budgetNotPositive
  -- Source: `if 'cmp_eur' in kwargs: ... validate_positive_value('CPM', kwargs['cmp_eur'])`
  if let some v := k.cmp_eur then
    if v ≤ 0 then throw InitErr.cpmNotPositive
  let cpmFinal : Option ℚ := match k.cmp_eur with
    | some v => some v
    | none => k.cpm_eur
  if let some n := k.name then
    if (trim n).isEmpty then throw InitErr.emptyName
  let datesFromRuntime : Option (Option Date × Date) ←
    match k.runtime with
    | some rt =>
      if (trim rt).isEmpty then throw InitErr.emptyRuntime
      else
        match parseRuntimeDates rt with
        | some p => pure (some p)
        | none => throw InitErr.runtimeParseFailed
    | none => pure none
  if k.buyer = some none then throw InitErr.buyerRequired
  let rs : Option Date := match datesFromRuntime with
    | some p => p.1
    | none => k.runtime_start.getD none
  let re : Option Date := match datesFromRuntime with
    | some p => some p.2
    | none => k.runtime_end
  pure { id := idNorm
         name := k.name
         runtime := k.runtime
         impression_goal := k.impression_goal
         budget_eur := k.budget_eur
         cpm_eur := cpmFinal
         buyer := k.buyer.getD none
         runtime_start := rs
         runtime_end := re
         is_running := calculate_is_running re today }

/-! ## Upload pipeline (src/backend/app/api/upload.py) -/

/-- The canonical field names of the upload header mapping. -/
inductive FieldName where
  | id
  | name
  | runtime
  | impression_goal
  | budget_eur
  | cpm_eur
  | buyer
  deriving DecidableEq, Repr

/-- The seven required fields checked by `XLSXProcessor._process_row`. -/
def requiredFields : List FieldName :=
  [FieldName.id, FieldName.name, FieldName.runtime, FieldName.impression_goal,
   FieldName.budget_eur, FieldName.cpm_eur, FieldName.buyer]

/-- A data row: cells are string values or empty (`None`). Non-string cell
types (numbers) are outside the model; the claims' rows are all strings. -/
abbrev Row := List (Option Str)

/-- Failures of `XLSXProcessor._process_row`. `missingFields` and
`dataConversionFailed` are the two `ValueError` raise sites;
`businessRuleUncaught` records that a `BusinessRuleError` (impression-goal
range) is not among the types the inner `except` catches and so propagates
unwrapped; `attributeErrorParseRuntime` records the `AttributeError` raised
by the `self.runtime_parser.parse_runtime(...)` call (see `process_row`). -/
inductive RowFailure where
  | missingFields (fs : List FieldName)
  | dataConversionFailed (e : ConvErr)
  | businessRuleUncaught (r : BizRule)
  | attributeErrorParseRuntime
  deriving DecidableEq, Repr

/-- The cell mapped to field `f` by the header map, flattening "column not
mapped", "column beyond the row" and "cell is `None`" to `none`, exactly the
cases `_process_row` treats as a missing required field. -/
def cellOf (row : Row) (headers : List (FieldName × ℕ)) (f : FieldName) :
    Option Str :=
  match List.lookup f headers with
  | some idx => if idx < row.length then (row.getD idx none) else none
  | none => none

/-- Model of the blank-row check `not any(cell for cell in row)` (for string
cells: every cell absent or empty). -/
def rowIsEmpty (row : Row) : Bool :=
  row.all (fun c => match c with | none => true | some s => s.isEmpty)

/-- Model of `XLSXProcessor._process_row`. Empty rows are skipped
(`ok none`). After the required-field check, the converters run in source
order; `DataValidationError`/`RuntimeParsingError`/`ValueError` are caught
and rewrapped (`dataConversionFailed`) while `BusinessRuleError` propagates.
The runtime step then evaluates `self.runtime_parser.parse_runtime(...)`;
`RuntimeParser` has no attribute `parse_runtime` (the function of that name
is module-level in runtime_parser.py), so the step raises `AttributeError`
and the construction of the campaign-data dictionary below it is
unreachable: the function can never return `ok (some _)`. -/
def process_row (row : Row) (headers : List (FieldName × ℕ)) :
    Except RowFailure (Option CampaignKwargs) := do
  if rowIsEmpty row then
    pure none
  else
    let missing := requiredFields.filter (fun f => cellOf row headers f = none)
    if !missing.isEmpty then
      throw (RowFailure.missingFields missing)
    else
      let _idv := trim ((cellOf row headers FieldName.id).getD [])
      let _namev := trim ((cellOf row headers FieldName.name).getD [])
      let _buyerv := trim ((cellOf row headers FieldName.buyer).getD [])
      let _goal : ℕ ←
        match convert_impression_goal
            ((cellOf row headers FieldName.impression_goal).getD []) with
        | Except.ok v => pure v
        | Except.error (ConvErr.dataValidation c) =>
          throw (RowFailure.dataConversionFailed (ConvErr.dataValidation c))
        | Except.error (ConvErr.businessRule r) =>
          throw (RowFailure.businessRuleUncaught r)
      let _budget : ℚ ←
        match convert_european_decimal
            ((cellOf row headers FieldName.budget_eur).getD []) with
        | Except.ok v => pure v
        | Except.error e => throw (RowFailure.dataConversionFailed e)
      let _cpm : ℚ ←
        match convert_european_decimal
            ((cellOf row headers FieldName.cpm_eur).getD []) with
        | Except.ok v => pure v
        | Except.error e => throw (RowFailure.dataConversionFailed e)
      let _runtimeStr := trim ((cellOf row headers FieldName.runtime).getD [])
      throw RowFailure.attributeErrorParseRuntime

/-- Model of the row loop of `XLSXProcessor.process_xlsx_file` (lines
95-112): each data row is handed to `_process_row`; a returned campaign
dictionary is appended to the campaigns list, a `None` (blank row) is
skipped, and any exception becomes an error entry carrying the row number
(the error entry's human-readable message and five-cell data sample are not
modelled). `n` is the number of the first row in the list (2 for the first
data row, as in the source). -/
def processRows (headers : List (FieldName × ℕ)) :
    List Row → ℕ → List CampaignKwargs × List (ℕ × RowFailure)
  | [], _ => ([], [])
  | r :: rest, n =>
    let (cs, es) := processRows headers rest (n + 1)
    match process_row r headers with
    | Except.ok (some k) => (k :: cs, es)
    | Except.ok none => (cs, es)
    | Except.error e => (cs, (n, e) :: es)

/-- Kind of a persistence failure recorded by the upload loop: the
`IntegrityError` handler or the generic `Exception` handler. -/
inductive PersistKind where
  | integrityError
  | databaseError
  deriving DecidableEq, Repr

/-- A persistence error entry: `campaign_id` is `campaign_data.get("id",
"unknown")` (the raw id), plus which handler recorded it. -/
structure PersistError where
  campaign_id : Str
  kind : PersistKind
  deriving DecidableEq, Repr

/-- The storage collaborator (spec §6): a committed-state insert that
enforces the primary-key constraint. Inserting a duplicate or missing id
fails (`IntegrityError`), leaving the committed state untouched; otherwise
the new entity is appended. -/
def insertCampaign (db : List Campaign) (c : Campaign) :
    Option (List Campaign) :=
  match c.id with
  | none => none
  | some i =>
    if db.any (fun x => x.id = some i) then none else some (db ++ [c])

/-- Model of the per-entity persistence loop of `upload_campaigns` (lines
297-331): for each campaign-data dictionary, construct the entity and commit
it in its own transaction; an `IntegrityError` (duplicate id) or any other
exception rolls back only that entity, records an error, and the loop
continues. Returns the committed ids in order, the persistence errors in
order, and the final committed state. -/
def persistCampaigns (today : Date) (db : List Campaign) :
    List CampaignKwargs → List Str × List PersistError × List Campaign
  | [] => ([], [], db)
  | k :: rest =>
    match campaignInit today k with
    | Except.error _ =>
      let (ids, errs, db') := persistCampaigns today db rest
      (ids, ⟨k.id.getD (toL "unknown"), PersistKind.databaseError⟩ :: errs, db')
    | Except.ok c =>
      match insertCampaign db c with
      | none =>
        let (ids, errs, db') := persistCampaigns today db rest
        (ids, ⟨k.id.getD (toL "unknown"), PersistKind.integrityError⟩ :: errs, db')
      | some db2 =>
        let (ids, errs, db') := persistCampaigns today db2 rest
        (c.id.getD [] :: ids, errs, db')

/-! ## Concrete inputs used by the example-based claims -/

/-- Header map for the canonical seven-column sheet, in source column order. -/
def claimHeaders : List (FieldName × ℕ) :=
  [(FieldName.id, 0), (FieldName.name, 1), (FieldName.runtime, 2),
   (FieldName.impression_goal, 3), (FieldName.budget_eur, 4),
   (FieldName.cpm_eur, 5), (FieldName.buyer, 6)]

/-- The end-to-end scenario row of the spec (§8). -/
def claimRow : Row :=
  [some (toL "A"), some (toL "X"), some (toL "ASAP-31.12.2025"),
   some (toL "500.000"), some (toL "1.500,75"), some (toL "3,25"),
   some (toL "Not set")]

/-- The scenario row with the impression goal rewritten without the
thousands separator. -/
def fixedGoalRow : Row :=
  [some (toL "A"), some (toL "X"), some (toL "ASAP-31.12.2025"),
   some (toL "500000"), some (toL "1.500,75"), some (toL "3,25"),
   some (toL "Not set")]

/-- Fixed reference date standing in for `date.today()` in concrete runs. -/
def refToday : Date := ⟨2025, 1, 1⟩

/-- A fully valid set of constructor kwargs (mirrors the repository's own
characterization-test fixture shape). -/
def kwValid : CampaignKwargs :=
  { id := some (toL "aaaaaaaa-aaaa-4aaa-8aaa-aaaaaaaaaaaa")
    name := some (toL "Financial Test")
    runtime := some (toL "ASAP-30.06.2025")
    impression_goal := some 1000000
    budget_eur := some 10000
    cpm_eur := some 2
    buyer := some (some (toL "Not set")) }

/-- `kwValid` with a zero unit cost under the correct `cpm_eur` key. -/
def kwCpmZero : CampaignKwargs := { kwValid with cpm_eur := some 0 }

/-- `kwValid` with a negative budget. -/
def kwBudgetNeg : CampaignKwargs := { kwValid with budget_eur := some (-1000) }

/-- `kwValid` with a zero unit cost under the typo key `cmp_eur`. -/
def kwCmpZero : CampaignKwargs :=
  { kwValid with cpm_eur := none, cmp_eur := some 0 }

/-- UUID of the first scenario row. -/
def uuidA : Str := toL "aaaaaaaa-aaaa-4aaa-8aaa-aaaaaaaaaaaa"

/-- UUID of the second scenario row, duplicating the committed entity. -/
def uuidB : Str := toL "bbbbbbbb-bbbb-4bbb-8bbb-bbbbbbbbbbbb"

/-- UUID of the third scenario row. -/
def uuidC : Str := toL "cccccccc-cccc-4ccc-8ccc-cccccccccccc"

/-- Scenario row 1 for the isolation scenario. -/
def k1w : CampaignKwargs :=
  { id := some uuidA, name := some (toL "Alpha")
    runtime := some (toL "ASAP-31.12.2025"), impression_goal := some 1000
    budget_eur := some 10, cpm_eur := some 2
    buyer := some (some (toL "Not set")) }

/-- Scenario row 2, whose id duplicates the already committed entity. -/
def k2w : CampaignKwargs :=
  { id := some uuidB, name := some (toL "Beta")
    runtime := some (toL "07.07.2025-24.07.2025"), impression_goal := some 2000
    budget_eur := some 20, cpm_eur := some 3
    buyer := some (some (toL "Buyer X")) }

/-- Scenario row 3 for the isolation scenario. -/
def k3w : CampaignKwargs :=
  { id := some uuidC, name := some (toL "Gamma")
    runtime := some (toL "ASAP-30.06.2025"), impression_goal := some 3000
    budget_eur := some 30, cpm_eur := some 4
    buyer := some (some (toL "Not set")) }

/-- Scenario row 1 as a raw sheet row (cells in `claimHeaders` order). -/
def rowW1 : Row :=
  [some uuidA, some (toL "Alpha"), some (toL "ASAP-31.12.2025"),
   some (toL "1000"), some (toL "10"), some (toL "2"),
   some (toL "Not set")]

/-- Scenario row 2 as a raw sheet row; its id duplicates the committed
entity. -/
def rowW2 : Row :=
  [some uuidB, some (toL "Beta"), some (toL "07.07.2025-24.07.2025"),
   some (toL "2000"), some (toL "20"), some (toL "3"),
   some (toL "Buyer X")]

/-- Scenario row 3 as a raw sheet row. -/
def rowW3 : Row :=
  [some uuidC, some (toL "Gamma"), some (toL "ASAP-30.06.2025"),
   some (toL "3000"), some (toL "30"), some (toL "4"),
   some (toL "Not set")]

/-- The entity already committed before the scenario batch runs. -/
def cPrev : Campaign :=
  { id := some uuidB, name := some (toL "Prev"), runtime := none
    impression_goal := some 1, budget_eur := some 1, cpm_eur := some 1
    buyer := some (toL "Not set"), runtime_start := none
    runtime_end := none, is_running := true }

/-- The entity row 1 constructs. -/
def c1w : Campaign :=
  { id := some uuidA, name := some (toL "Alpha")
    runtime := some (toL "ASAP-31.12.2025"), impression_goal := some 1000
    budget_eur := some 10, cpm_eur := some 2, buyer := some (toL "Not set")
    runtime_start := none, runtime_end := some ⟨2025, 12, 31⟩
    is_running := true }

/-- The entity row 2 constructs (rejected at commit time). -/
def c2w : Campaign :=
  { id := some uuidB, name := some (toL "Beta")
    runtime := some (toL "07.07.2025-24.07.2025"), impression_goal := some 2000
    budget_eur := some 20, cpm_eur := some 3, buyer := some (toL "Buyer X")
    runtime_start := some ⟨2025, 7, 7⟩, runtime_end := some ⟨2025, 7, 24⟩
    is_running := true }

/-- The entity row 3 constructs. -/
def c3w : Campaign :=
  { id := some uuidC, name := some (toL "Gamma")
    runtime := some (toL "ASAP-30.06.2025"), impression_goal := some 3000
    budget_eur := some 30, cpm_eur := some 4, buyer := some (toL "Not set")
    runtime_start := none, runtime_end := some ⟨2025, 6, 30⟩
    is_running := true }

/-! ## Helper lemmas -/

/-- The statistics loop only ever bumps the campaign or the deal counter:
their sum grows by the list length and the invalid counter is untouched. -/
theorem statsLoop_spec (l : List PyVal) :
    ∀ c d i : ℕ,
      (statsLoop (c, d, i) l).1 + (statsLoop (c, d, i) l).2.1 = c + d + l.length
      ∧ (statsLoop (c, d, i) l).2.2 = i := by
  induction l with
  | nil => intro c d i; simp [statsLoop]
  | cons b rest ih =>
    intro c d i
    by_cases h : is_campaign b
    · have h1 := ih (c + 1) d i
      simp only [statsLoop, h, if_true, List.length_cons]
      exact ⟨by omega, h1.2⟩
    · have h1 := ih c (d + 1) i
      simp only [statsLoop, h, if_false, Bool.false_eq_true, List.length_cons]
      exact ⟨by omega, h1.2⟩

/-- A character list that contains something is nonempty. -/
theorem isEmpty_false_of_contains {s : Str} {a : Char}
    (h : s.contains a = true) : s.isEmpty = false := by
  cases s with
  | nil => simp at h
  | cons c t => rfl

/-- Membership in a digit run forces the digit property. -/
theorem not_mem_of_all_digits {a : Char} (ha : a.isDigit = false) {s : Str}
    (h : s.all Char.isDigit = true) : a ∉ s := fun hm => by
  have := List.all_eq_true.mp h a hm
  rw [ha] at this
  exact Bool.noConfusion this

/-- A comma is not a digit and not a dot, hence not in a digits-and-dots run. -/
theorem comma_not_mem_digits_dots {s : Str}
    (h : s.all (fun c => c.isDigit || c = '.') = true) : ',' ∉ s := fun hm => by
  have := List.all_eq_true.mp h ',' hm
  exact absurd this (by decide)

/-- Unpacking `pyIsDigit`. -/
theorem pyIsDigit_spec {s : Str} (h : pyIsDigit s = true) :
    s ≠ [] ∧ s.all Char.isDigit = true := by
  have h' := h
  unfold pyIsDigit at h'
  rw [Bool.and_eq_true] at h'
  exact ⟨by simpa using h'.1, h'.2⟩

/-- Splitting a separator-free string yields one chunk. -/
theorem splitAux_no_sep (sep : Char) :
    ∀ s acc : Str, sep ∉ s → splitAux sep s acc = [acc.reverse ++ s] := by
  intro s
  induction s with
  | nil => intro acc _; simp [splitAux]
  | cons c t ih =>
    intro acc hs
    have hc : ¬c = sep := fun h => hs (h ▸ List.mem_cons_self c t)
    have ht : sep ∉ t := fun h => hs (List.mem_cons_of_mem c h)
    simp [splitAux, hc, ih (c :: acc) ht]

/-- Splitting at the first separator after a separator-free prefix. -/
theorem splitAux_with_sep (sep : Char) :
    ∀ p acc b : Str, sep ∉ p →
      splitAux sep (p ++ sep :: b) acc = (acc.reverse ++ p) :: splitOn sep b := by
  intro p
  induction p with
  | nil => intro acc b _; simp [splitAux, splitOn]
  | cons c t ih =>
    intro acc b hp
    have hc : ¬c = sep := fun h => hp (h ▸ List.mem_cons_self c t)
    have ht : sep ∉ t := fun h => hp (List.mem_cons_of_mem c h)
    simp [splitAux, hc, ih (c :: acc) b ht]

/-- `split` on a string of the form `p ++ sep :: b` with separator-free
`p` and `b` yields exactly the two parts. -/
theorem splitOn_pair {sep : Char} {p b : Str} (hp : sep ∉ p) (hb : sep ∉ b) :
    splitOn sep (p ++ sep :: b) = [p, b] := by
  rw [splitOn, splitAux_with_sep sep p [] b hp]
  simp [splitOn, splitAux_no_sep sep b [] hb]

/-- The number of chunks `split` produces is the separator count plus one. -/
theorem splitAux_length (sep : Char) :
    ∀ s acc : Str, (splitAux sep s acc).length = s.count sep + 1 := by
  intro s
  induction s with
  | nil => intro acc; simp [splitAux]
  | cons c t ih =>
    intro acc
    by_cases hc : c = sep
    · subst hc
      simp [splitAux, ih, List.count_cons]
    · simp [splitAux, hc, ih, List.count_cons, Ne.symm hc]

/-- Chunk count of `splitOn`. -/
theorem splitOn_length (sep : Char) (s : Str) :
    (splitOn sep s).length = s.count sep + 1 :=
  splitAux_length sep s []

/-- `takeWhile` passes over a fully satisfying prefix. -/
theorem takeWhile_append_all {p : Char → Bool} :
    ∀ {l : Str} (r : Str), l.all p = true →
      (l ++ r).takeWhile p = l ++ r.takeWhile p := by
  intro l
  induction l with
  | nil => intro r _; simp
  | cons c t ih => intro r h; simp_all [List.takeWhile_cons]

/-- `dropWhile` drops a fully satisfying prefix. -/
theorem dropWhile_append_all {p : Char → Bool} :
    ∀ {l : Str} (r : Str), l.all p = true →
      (l ++ r).dropWhile p = r.dropWhile p := by
  intro l
  induction l with
  | nil => intro r _; simp
  | cons c t ih => intro r h; simp_all [List.dropWhile_cons]

/-- Digits satisfy the not-a-dot predicate used by `pyFloatCore`. -/
theorem digits_all_ne_dot {s : Str} (h : s.all Char.isDigit = true) :
    s.all (fun c => c ≠ '.') = true := by
  rw [List.all_eq_true] at h ⊢
  intro c hc
  have hd := h c hc
  simp only [ne_eq, decide_eq_true_eq]
  intro hdot
  subst hdot
  exact absurd hd (by decide)

/-- Digits satisfy the digit-or-dot predicate used by `pyFloatCore`. -/
theorem digits_all_digit_or_dot {s : Str} (h : s.all Char.isDigit = true) :
    s.all (fun c => c.isDigit || c = '.') = true := by
  rw [List.all_eq_true] at h ⊢
  intro c hc
  simp [h c hc]

/-- `pyFloatCore` on `ip ++ '.' :: fp` with digit runs on both sides computes
the decimal value `ip . fp`. -/
theorem pyFloatCore_point {ip fp : Str} (hip : ip.all Char.isDigit = true)
    (hfp : pyIsDigit fp = true) :
    pyFloatCore (ip ++ '.' :: fp)
      = some ((ofDigits ip : ℚ) + (ofDigits fp : ℚ) / 10 ^ fp.length) := by
  obtain ⟨hfne, hfd⟩ := pyIsDigit_spec hfp
  have hall : (ip ++ '.' :: fp).all (fun c => c.isDigit || c = '.') = true := by
    rw [List.all_append, Bool.and_eq_true]
    refine ⟨digits_all_digit_or_dot hip, ?_⟩
    rw [List.all_cons, Bool.and_eq_true]
    exact ⟨by decide, digits_all_digit_or_dot hfd⟩
  have h1 : ip.count '.' = 0 :=
    List.count_eq_zero_of_not_mem (not_mem_of_all_digits (by decide) hip)
  have h2 : fp.count '.' = 0 :=
    List.count_eq_zero_of_not_mem (not_mem_of_all_digits (by decide) hfd)
  have hcnt : (ip ++ '.' :: fp).count '.' ≤ 1 := by
    rw [List.count_append, List.count_cons]
    simp [h1, h2]
  have hany : (ip ++ '.' :: fp).any Char.isDigit = true := by
    rw [List.any_append, Bool.or_eq_true]
    refine Or.inr ?_
    rw [List.any_cons, Bool.or_eq_true]
    refine Or.inr ?_
    rcases fp with _ | ⟨c, t⟩
    · exact absurd rfl hfne
    · rw [List.any_cons, Bool.or_eq_true]
      exact Or.inl (List.all_eq_true.mp hfd c (List.mem_cons_self c t))
  have htake : (ip ++ '.' :: fp).takeWhile (fun c => c ≠ '.') = ip := by
    rw [takeWhile_append_all _ (digits_all_ne_dot hip)]
    simp [List.takeWhile_cons]
  have hdrop : (ip ++ '.' :: fp).dropWhile (fun c => c ≠ '.') = '.' :: fp := by
    rw [dropWhile_append_all _ (digits_all_ne_dot hip)]
    simp [List.dropWhile_cons]
  unfold pyFloatCore
  rw [if_pos]
  · rw [htake, hdrop]
    simp
  · rw [Bool.and_eq_true, Bool.and_eq_true]
    refine ⟨⟨hall, ?_⟩, hany⟩
    simpa using hcnt

/-- `pyFloat` agrees with `pyFloatCore` on strings of digits and dots (no
leading sign). -/
theorem pyFloat_eq_core_of_digits_dots {s : Str}
    (h : s.all (fun c => c.isDigit || c = '.') = true) :
    pyFloat s = pyFloatCore s := by
  cases s with
  | nil => rfl
  | cons c t =>
    have hc := List.all_eq_true.mp h c (List.mem_cons_self c t)
    have h1 : ¬c = '-' := by
      intro hcc; subst hcc; exact absurd hc (by decide)
    have h2 : ¬c = '+' := by
      intro hcc; subst hcc; exact absurd hc (by decide)
    simp [pyFloat, h1, h2]

/-- Elements surviving `removeAll '.'` on a digits-and-dots run are digits. -/
theorem removeAll_dot_digits {p : Str}
    (hp : p.all (fun c => c.isDigit || c = '.') = true) :
    (removeAll '.' p).all Char.isDigit = true := by
  rw [List.all_eq_true]
  intro c hc
  rw [removeAll, List.mem_filter] at hc
  have h1 := List.all_eq_true.mp hp c hc.1
  have h2 := hc.2
  rw [Bool.or_eq_true] at h1
  rcases h1 with h | h
  · exact h
  · exfalso
    simp only [decide_eq_true_eq] at h h2
    exact absurd h (by simpa using h2)

/-- The core evaluation of `_convert_european_format` on a well-formed
European string `p,b`: dots are stripped from `p` and `b` becomes the
fractional part. -/
theorem convertEuropeanFormat_value {p b : Str}
    (hp : p.all (fun c => c.isDigit || c = '.') = true)
    (hb : pyIsDigit b = true) :
    convertEuropeanFormat (p ++ ',' :: b)
      = Except.ok ((ofDigits (removeAll '.' p) : ℚ)
          + (ofDigits b : ℚ) / 10 ^ b.length) := by
  obtain ⟨hbne, hbd⟩ := pyIsDigit_spec hb
  have hpc : ',' ∉ p := comma_not_mem_digits_dots hp
  have hbc : ',' ∉ b := not_mem_of_all_digits (by decide) hbd
  have hcontains : (p ++ ',' :: b).contains ',' = true := by
    simp
  have hsplit := splitOn_pair hpc hbc
  have hip := removeAll_dot_digits hp
  have hallc : (removeAll '.' p ++ '.' :: b).all
      (fun c => c.isDigit || c = '.') = true := by
    rw [List.all_append, Bool.and_eq_true]
    refine ⟨digits_all_digit_or_dot hip, ?_⟩
    rw [List.all_cons, Bool.and_eq_true]
    exact ⟨by decide, digits_all_digit_or_dot hbd⟩
  unfold convertEuropeanFormat
  rw [hcontains, hsplit]
  simp only [if_true, hb]
  rw [floatOrEuroErr, pyFloat_eq_core_of_digits_dots hallc,
    pyFloatCore_point hip hb]

/-- `pyFloatCore` on a pure digit run parses the integer value. -/
theorem pyFloatCore_digits {s : Str} (h : pyIsDigit s = true) :
    pyFloatCore s = some ((ofDigits s : ℚ)) := by
  obtain ⟨hne, hd⟩ := pyIsDigit_spec h
  have hall : s.all (fun c => c.isDigit || c = '.') = true :=
    digits_all_digit_or_dot hd
  have hcnt : s.count '.' = 0 :=
    List.count_eq_zero_of_not_mem (not_mem_of_all_digits (by decide) hd)
  have hany : s.any Char.isDigit = true := by
    rcases s with _ | ⟨c, t⟩
    · exact absurd rfl hne
    · rw [List.any_cons, Bool.or_eq_true]
      exact Or.inl (List.all_eq_true.mp hd c (List.mem_cons_self c t))
  have htake : s.takeWhile (fun c => c ≠ '.') = s := by
    have := takeWhile_append_all (l := s) [] (digits_all_ne_dot hd)
    simpa using this
  have hdrop : s.dropWhile (fun c => c ≠ '.') = [] := by
    have := dropWhile_append_all (l := s) [] (digits_all_ne_dot hd)
    simpa using this
  unfold pyFloatCore
  rw [if_pos]
  · rw [htake, hdrop]
    simp [ofDigits]
  · rw [Bool.and_eq_true, Bool.and_eq_true]
    exact ⟨⟨hall, by simp [hcnt]⟩, hany⟩

/-- Branch normal form of `convert_european_decimal` (definitional). -/
theorem ced_cases (s : Str) :
    convert_european_decimal s =
      if (trim s).isEmpty then
        Except.error (ConvErr.dataValidation ValCtx.emptyStringCheck)
      else if (trim s).contains ',' && decide ((trim s).count '.' > 1) then
        convertEuropeanFormat (trim s)
      else if (trim s).contains ',' && !(trim s).contains '.' then
        convertEuropeanFormat (trim s)
      else if !(trim s).contains ',' && (trim s).contains '.' then
        match pyFloat (trim s) with
        | some q => Except.ok q
        | none => Except.error (ConvErr.dataValidation ValCtx.usFormatConversion)
      else if !(trim s).contains ',' && !(trim s).contains '.' then
        match pyFloat (trim s) with
        | some q => Except.ok q
        | none =>
          Except.error (ConvErr.dataValidation ValCtx.integerFormatConversion)
      else convertEuropeanFormat (trim s) := rfl

/-- A string with at least two commas defeats `_convert_european_format`:
the comma split has at least three parts. -/
theorem convertEuropeanFormat_multi_comma {v : Str} (h : 2 ≤ v.count ',') :
    convertEuropeanFormat v
      = Except.error (ConvErr.dataValidation ValCtx.europeanDecimalFormat) := by
  have hmem : ',' ∈ v := List.count_pos_iff.mp (by omega)
  have hcontains : v.contains ',' = true := by simpa using hmem
  have hlen3 : 3 ≤ (splitOn ',' v).length := by
    rw [splitOn_length]; omega
  unfold convertEuropeanFormat
  rw [hcontains]
  rcases hsp : splitOn ',' v with _ | ⟨a, _ | ⟨b, _ | ⟨c, t⟩⟩⟩
  · rw [hsp] at hlen3; simp at hlen3
  · rw [hsp] at hlen3; simp at hlen3
  · rw [hsp] at hlen3; simp at hlen3
  · simp

/-- Whenever the (stripped) input contains a comma, every branch of
`convert_european_decimal` delegates to `_convert_european_format`. -/
theorem ced_comma {s : Str} (h : (trim s).contains ',' = true) :
    convert_european_decimal s = convertEuropeanFormat (trim s) := by
  have hne := isEmpty_false_of_contains h
  have hc3 : (!(trim s).contains ',' && (trim s).contains '.') = false := by
    rw [h]; rfl
  have hc4 : (!(trim s).contains ',' && !(trim s).contains '.') = false := by
    rw [h]; rfl
  rw [ced_cases]
  simp only [hne, hc3, hc4, Bool.false_eq_true, if_false]
  split_ifs <;> rfl

/-- End-to-end evaluation of `convert_european_decimal` on a European-format
string that splits as `p,b`. -/
theorem ced_euro_eval {s p b : Str} (hs : trim s = p ++ ',' :: b)
    (hp : p.all (fun c => c.isDigit || c = '.') = true)
    (hb : pyIsDigit b = true) {q : ℚ}
    (hq : (ofDigits (removeAll '.' p) : ℚ)
        + (ofDigits b : ℚ) / 10 ^ b.length = q) :
    convert_european_decimal s = Except.ok q := by
  obtain ⟨hbne, hbd⟩ := pyIsDigit_spec hb
  have hcomma : (trim s).contains ',' = true := by
    rw [hs]; simp
  rw [ced_comma hcomma, hs, convertEuropeanFormat_value hp hb, hq]

/-- A successful `readDigit` means the input starts with a digit. -/
theorem readDigit_some_shape {s : Str} {v : ℕ} {r : Str}
    (h : readDigit s = some (v, r)) :
    ∃ c t, s = c :: t ∧ c.isDigit = true := by
  cases s with
  | nil => simp [readDigit] at h
  | cons c t =>
    by_cases hc : c.isDigit
    · exact ⟨c, t, rfl, hc⟩
    · simp [readDigit, hc] at h

/-- A successful standard-pattern match means the input starts with a digit. -/
theorem matchStandard_head {s : Str} {x : (ℕ × ℕ × ℕ) × (ℕ × ℕ × ℕ)}
    (h : matchStandard s = some x) :
    ∃ c t, s = c :: t ∧ c.isDigit = true := by
  unfold matchStandard at h
  rcases Option.bind_eq_some.mp h with ⟨⟨dmy1, r1⟩, hdmy, -⟩
  unfold readDmy at hdmy
  rcases Option.bind_eq_some.mp hdmy with ⟨⟨d, rr⟩, hd2, -⟩
  unfold read2 at hd2
  rcases Option.bind_eq_some.mp hd2 with ⟨⟨a, ra⟩, hdig, -⟩
  exact readDigit_some_shape hdig

/-- A successful ASAP-pattern match means the input starts with `'A'`. -/
theorem matchAsap_head {s : Str} {x : ℕ × ℕ × ℕ}
    (h : matchAsap s = some x) : ∃ t, s = 'A' :: t := by
  unfold matchAsap at h
  rcases Option.bind_eq_some.mp h with ⟨r1, hr1, -⟩
  cases s with
  | nil => simp [expectChar] at hr1
  | cons c t =>
    by_cases hc : c = 'A'
    · exact ⟨t, by rw [hc]⟩
    · simp [expectChar, hc] at hr1

/-- The two anchored patterns are mutually exclusive: a string matching the
standard range pattern cannot match the ASAP pattern. -/
theorem asap_standard_disjoint {s : Str} {x : (ℕ × ℕ × ℕ) × (ℕ × ℕ × ℕ)}
    (h : matchStandard s = some x) : matchAsap s = none := by
  obtain ⟨c, t, rfl, hc⟩ := matchStandard_head h
  have hcA : ¬c = 'A' := by
    intro he; subst he; exact absurd hc (by decide)
  unfold matchAsap
  simp [expectChar, hcA]

/-- Stepping `parse` into the standard-format handler. -/
theorem parse_standard_eq {s : Str} {dmys : (ℕ × ℕ × ℕ) × (ℕ × ℕ × ℕ)}
    (hS : matchStandard (trim s) = some dmys) (t : Date) :
    RuntimeParser.parse s t = parseStandardFormat dmys t := by
  have hA := asap_standard_disjoint hS
  obtain ⟨c, t', hct, -⟩ := matchStandard_head hS
  have hne : (trim s).isEmpty = false := by rw [hct]; rfl
  unfold RuntimeParser.parse
  rw [hne]
  simp only [Bool.false_eq_true, if_false, hA, hS]

/-- Stepping `parse` into the ASAP-format handler. -/
theorem parse_asap_eq {s : Str} {dmy : ℕ × ℕ × ℕ}
    (hA : matchAsap (trim s) = some dmy) (t : Date) :
    RuntimeParser.parse s t = parseAsapFormat dmy t := by
  obtain ⟨t', hct⟩ := matchAsap_head hA
  have hne : (trim s).isEmpty = false := by rw [hct]; rfl
  unfold RuntimeParser.parse
  rw [hne]
  simp only [Bool.false_eq_true, if_false, hA]

/-- Stepping `parse` into the fall-through format error. -/
theorem parse_no_match {s : Str} (hne : (trim s).isEmpty = false)
    (hA : matchAsap (trim s) = none) (hS : matchStandard (trim s) = none)
    (t : Date) :
    RuntimeParser.parse s t = Except.error (RtErr.invalidFormat expectedPatterns) := by
  unfold RuntimeParser.parse
  rw [hne]
  simp only [Bool.false_eq_true, if_false, hA, hS]
  rfl

/-- Dates are irreflexive under the strict order. -/
theorem dateLtB_irrefl (t : Date) : dateLtB t t = false := by
  simp [dateLtB, dateLtP]

/-- A date is `≤` itself. -/
theorem dateLeB_refl (t : Date) : dateLeB t t = true := by
  simp [dateLeB]

/-- The non-strict and strict date comparisons differ exactly at equality. -/
theorem dateLeB_ne_dateLtB_iff (t e : Date) :
    (dateLeB t e ≠ dateLtB t e) ↔ e = t := by
  by_cases he : t = e
  · subst he
    simp [dateLeB_refl, dateLtB_irrefl]
  · have : decide (t = e) = false := by simpa using he
    simp [dateLeB, this]
    exact fun hh => absurd hh.symm he

/-- A successful parse always sets `is_running` to `end_date ≥ current`. -/
theorem parse_ok_is_running {s : Str} {t : Date} {r : ParseResult}
    (h : RuntimeParser.parse s t = Except.ok r) :
    r.is_running = dateLeB t r.end_date := by
  by_cases hne : (trim s).isEmpty
  · unfold RuntimeParser.parse at h
    rw [hne] at h
    simp at h
  · have hne' : (trim s).isEmpty = false := by simpa using hne
    cases hA : matchAsap (trim s) with
    | some dmy =>
      rw [parse_asap_eq hA] at h
      unfold parseAsapFormat at h
      cases hcd : createDate dmy.1 dmy.2.1 dmy.2.2 with
      | none => rw [hcd] at h; simp at h
      | some e =>
        rw [hcd] at h
        have := Except.ok.inj h
        rw [← this]
    | none =>
      cases hS : matchStandard (trim s) with
      | some dmys =>
        rw [parse_standard_eq hS] at h
        unfold parseStandardFormat at h
        cases hc1 : createDate dmys.1.1 dmys.1.2.1 dmys.1.2.2 with
        | none => rw [hc1] at h; simp at h
        | some d1 =>
          cases hc2 : createDate dmys.2.1 dmys.2.2.1 dmys.2.2.2 with
          | none => rw [hc1, hc2] at h; simp at h
          | some d2 =>
            rw [hc1, hc2] at h
            by_cases hle : dateLeB d2 d1
            · simp [hle] at h
            · obtain ⟨rs, re, ri⟩ := r
              simp [hle, pure, Except.pure, ParseResult.mk.injEq] at h
              obtain ⟨-, h2, h3⟩ := h
              rw [← h3, h2]
      | none =>
        rw [parse_no_match hne' hA hS] at h
        simp at h

/-- A fresh id makes the insert commit by appending. -/
theorem insertCampaign_fresh {db : List Campaign} {c : Campaign} {i : Str}
    (hid : c.id = some i)
    (h : db.any (fun x => x.id = some i) = false) :
    insertCampaign db c = some (db ++ [c]) := by
  simp [insertCampaign, hid, h]

/-- A duplicate id makes the insert fail with an integrity error. -/
theorem insertCampaign_dup {db : List Campaign} {c : Campaign} {i : Str}
    (hid : c.id = some i)
    (h : db.any (fun x => x.id = some i) = true) :
    insertCampaign db c = none := by
  simp [insertCampaign, hid, h]

/-- A successful insert is exactly an append. -/
theorem insertCampaign_some {db db2 : List Campaign} {c : Campaign}
    (h : insertCampaign db c = some db2) : db2 = db ++ [c] := by
  cases hid : c.id with
  | none => simp [insertCampaign, hid] at h
  | some i =>
    by_cases hd : db.any (fun x => x.id = some i)
    · simp [insertCampaign, hid, hd] at h
    · simp [insertCampaign, hid, hd] at h
      exact h.symm

/-- The persistence loop never removes an already committed entity: the
final committed state always extends the initial one. -/
theorem persistCampaigns_preserves (today : Date) :
    ∀ (ks : List CampaignKwargs) (db : List Campaign),
      ∃ tail, (persistCampaigns today db ks).2.2 = db ++ tail := by
  intro ks
  induction ks with
  | nil => intro db; exact ⟨[], by simp [persistCampaigns]⟩
  | cons k rest ih =>
    intro db
    cases hI : campaignInit today k with
    | error e =>
      obtain ⟨tail, htail⟩ := ih db
      refine ⟨tail, ?_⟩
      simp only [persistCampaigns, hI]
      rcases hp : persistCampaigns today db rest with ⟨ids, errs, db'⟩
      rw [hp] at htail
      exact htail
    | ok c =>
      cases hIns : insertCampaign db c with
      | none =>
        obtain ⟨tail, htail⟩ := ih db
        refine ⟨tail, ?_⟩
        simp only [persistCampaigns, hI, hIns]
        rcases hp : persistCampaigns today db rest with ⟨ids, errs, db'⟩
        rw [hp] at htail
        exact htail
      | some db2 =>
        obtain ⟨tail, htail⟩ := ih db2
        have hdb2 := insertCampaign_some hIns
        refine ⟨c :: tail, ?_⟩
        simp only [persistCampaigns, hI, hIns]
        rcases hp : persistCampaigns today db2 rest with ⟨ids, errs, db'⟩
        rw [hp] at htail
        simpa [hdb2] using htail

/-- `_process_row` can never produce a campaign-data dictionary: every
non-blank row with all required fields reaches the
`self.runtime_parser.parse_runtime(...)` call, which raises
`AttributeError`, and every other path raises earlier or skips the row. -/
theorem process_row_never_some (row : Row) (headers : List (FieldName × ℕ))
    (k : CampaignKwargs) :
    process_row row headers ≠ Except.ok (some k) := by
  intro h
  unfold process_row at h
  by_cases h0 : rowIsEmpty row
  · simp [h0, pure, Except.pure] at h
  · rw [if_neg h0] at h
    by_cases h1 : ((requiredFields.filter
        (fun f => cellOf row headers f = none)).isEmpty)
    · simp only [h1, Bool.not_true, Bool.false_eq_true, if_false] at h
      cases hg : convert_impression_goal
          ((cellOf row headers FieldName.impression_goal).getD []) with
      | error e =>
        cases e <;> simp [hg, bind, Except.bind, throw, throwThe,
          MonadExceptOf.throw] at h
      | ok v =>
        cases hb : convert_european_decimal
            ((cellOf row headers FieldName.budget_eur).getD []) with
        | error e =>
          simp [hg, hb, bind, Except.bind, throw, throwThe,
            MonadExceptOf.throw, pure, Except.pure] at h
        | ok vb =>
          cases hc : convert_european_decimal
              ((cellOf row headers FieldName.cpm_eur).getD []) with
          | error e =>
            simp [hg, hb, hc, bind, Except.bind, throw, throwThe,
              MonadExceptOf.throw, pure, Except.pure] at h
          | ok vc =>
            simp [hg, hb, hc, bind, Except.bind, throw, throwThe,
              MonadExceptOf.throw, pure, Except.pure] at h
    · have h1' : (!(requiredFields.filter
          (fun f => cellOf row headers f = none)).isEmpty) = true := by
        simpa using h1
      simp only [h1', if_true] at h
      simp [throw, throwThe, MonadExceptOf.throw] at h

/-- Consequently the campaigns list produced by the row-processing loop is
empty for every batch. -/
theorem processRows_no_campaigns (headers : List (FieldName × ℕ)) :
    ∀ (rows : List Row) (n : ℕ), (processRows headers rows n).1 = [] := by
  intro rows
  induction rows with
  | nil => intro n; rfl
  | cons r rest ih =>
    intro n
    have hcs := ih (n + 1)
    simp only [processRows]
    rcases hp : processRows headers rest (n + 1) with ⟨cs, es⟩
    rw [hp] at hcs
    cases hr : process_row r headers with
    | error e =>
      simp [hr]
      exact hcs
    | ok o =>
      cases o with
      | none =>
        simp [hr]
        exact hcs
      | some k => exact absurd hr (process_row_never_some r headers k)

/-! ## Claim theorems -/

/-- C10: for every input list, the batch classification statistics satisfy
`campaign_count + deal_count = total_count` and `invalid_count = 0`: the
underlying boolean check `is_campaign` swallows classification errors and
defaults to the deal classification, so no input is ever counted invalid. -/
theorem C10_statistics_partition (l : List PyVal) :
    (get_campaign_statistics l).campaign_count
        + (get_campaign_statistics l).deal_count
      = (get_campaign_statistics l).total_count
    ∧ (get_campaign_statistics l).invalid_count = 0 := by
  by_cases h : l.isEmpty
  · simp [get_campaign_statistics, h]
  · have hs := statsLoop_spec l 0 0 0
    simp only [get_campaign_statistics, h, Bool.false_eq_true, if_false]
    constructor
    · simpa using hs.1
    · simpa using hs.2

/-- C7 counterexample: `classify` called on `None` raises a
`ClassificationError` instead of returning the deal classification, so the
claim that `classify` never fails and maps null to "deal" is false. -/
theorem C7_counterexample :
    classify PyVal.none = Except.error ClassifyErr.classificationError
    ∧ (classify PyVal.none).isOk = false := by
  constructor <;> rfl

/-- C7 (amended): `classify` returns "campaign" exactly on the exact,
case-sensitive, whitespace-sensitive string "Not set" and "deal" on every
other string, but it raises a `ClassificationError` on `None` and a
`TypeError` on non-string input; the defensive never-failing deal default
lives in the boolean helper `is_campaign`, which catches those errors and
returns `false` for `None` and non-string input. -/
theorem C7_classify_exact_sentinel :
    (∀ s : Str,
      (classify (PyVal.str s)).map (fun r => r.campaign_type)
        = Except.ok
            (if s = CAMPAIGN_BUYER_VALUE then CampaignType.campaign
             else CampaignType.deal))
    ∧ classify PyVal.none = Except.error ClassifyErr.classificationError
    ∧ classify PyVal.nonStr = Except.error ClassifyErr.typeError
    ∧ is_campaign PyVal.none = false
    ∧ is_campaign PyVal.nonStr = false
    ∧ (∀ s : Str, is_campaign (PyVal.str s) = decide (s = CAMPAIGN_BUYER_VALUE))
    ∧ (classify (PyVal.str (toL "not set"))).map (fun r => r.campaign_type)
        = Except.ok CampaignType.deal
    ∧ (classify (PyVal.str (toL " Not set "))).map (fun r => r.campaign_type)
        = Except.ok CampaignType.deal := by
  refine ⟨?_, rfl, rfl, rfl, rfl, ?_, by decide, by decide⟩
  · intro s
    by_cases h : s = CAMPAIGN_BUYER_VALUE <;> simp [classify, h, Except.map]
  · intro s
    by_cases h : s = CAMPAIGN_BUYER_VALUE <;> simp [classify, is_campaign, h]

/-- C3 counterexample: the claim says a comma together with exactly one dot
is a format error, but `convert_european_decimal` routes that combination
through the fall-through European branch and succeeds:
`"1.234,56"` yields `1234.56`. -/
theorem C3_counterexample :
    convert_european_decimal (toL "1.234,56") = Except.ok (1234.56 : ℚ)
    ∧ (convert_european_decimal (toL "1.234,56")).isOk = true := by
  have h : convert_european_decimal (toL "1.234,56") = Except.ok (1234.56 : ℚ) := by
    refine ced_euro_eval (p := toL "1.234") (b := toL "56")
      (by decide) (by decide) (by decide) ?_
    have e1 : ofDigits (removeAll '.' (toL "1.234")) = 1234 := by decide
    have e2 : ofDigits (toL "56") = 56 := by decide
    have e3 : (toL "56").length = 2 := by decide
    rw [e1, e2, e3]
    norm_num
  exact ⟨h, by rw [h]; rfl⟩

/-- C3 (amended): `convert_european_decimal` applies the ordered rules:
(a) a comma with more than one dot, or a comma with no dot, routes to the
European conversion (comma as decimal separator, dots stripped); (b) a dot
and no comma parses directly; (c) neither separator parses directly as an
integer-valued decimal; and — correcting the claim — a comma with exactly
one dot is not a format error but also routes to the European conversion
(the source's fall-through branch), so `"1.234,56"` yields `1234.56`.
Failures of the European conversion are strings whose comma split does not
have exactly two parts (for example multiple commas) or whose parts do not
form a decimal; on every well-formed European string `p,b` the result is the
US-formatted equivalent, as in `"1.234.567,89" = 1234567.89` and
`"2396690,38" = 2396690.38`. -/
theorem C3_convert_decimal_rules :
    (∀ s : Str, (trim s).contains ',' = true → (trim s).count '.' > 1 →
      convert_european_decimal s = convertEuropeanFormat (trim s))
    ∧ (∀ s : Str, (trim s).contains ',' = true → (trim s).contains '.' = false →
      convert_european_decimal s = convertEuropeanFormat (trim s))
    ∧ (∀ s : Str, (trim s).isEmpty = false →
        (trim s).contains ',' = false → (trim s).contains '.' = true →
      convert_european_decimal s
        = match pyFloat (trim s) with
          | some q => Except.ok q
          | none => Except.error (ConvErr.dataValidation ValCtx.usFormatConversion))
    ∧ (∀ s : Str, (trim s).isEmpty = false →
        (trim s).contains ',' = false → (trim s).contains '.' = false →
      convert_european_decimal s
        = match pyFloat (trim s) with
          | some q => Except.ok q
          | none =>
            Except.error (ConvErr.dataValidation ValCtx.integerFormatConversion))
    ∧ (∀ s : Str, (trim s).contains ',' = true → (trim s).count '.' = 1 →
      convert_european_decimal s = convertEuropeanFormat (trim s))
    ∧ (∀ p b : Str, p.all (fun c => c.isDigit || c = '.') = true →
        pyIsDigit b = true →
      convertEuropeanFormat (p ++ ',' :: b)
        = Except.ok ((ofDigits (removeAll '.' p) : ℚ)
            + (ofDigits b : ℚ) / 10 ^ b.length))
    ∧ (∀ s : Str, 2 ≤ (trim s).count ',' →
      convert_european_decimal s
        = Except.error (ConvErr.dataValidation ValCtx.europeanDecimalFormat))
    ∧ convert_european_decimal (toL "1.234.567,89") = Except.ok (1234567.89 : ℚ)
    ∧ convert_european_decimal (toL "2396690,38") = Except.ok (2396690.38 : ℚ)
    ∧ convert_european_decimal (toL "1.234,56") = Except.ok (1234.56 : ℚ)
    ∧ convert_european_decimal (toL "1234.56") = Except.ok (1234.56 : ℚ)
    ∧ convert_european_decimal (toL "1234") = Except.ok (1234 : ℚ) := by
  refine ⟨?_, ?_, ?_, ?_, ?_, ?_, ?_, ?_, ?_, ?_, ?_, ?_⟩
  · intro s h1 _; exact ced_comma h1
  · intro s h1 _; exact ced_comma h1
  · intro s hne h1 h2
    have hm1 : ',' ∉ trim s := by simpa using h1
    have hm2 : '.' ∈ trim s := by simpa using h2
    rw [ced_cases, hne]
    simp [h1, h2, hm1, hm2]
  · intro s hne h1 h2
    have hm1 : ',' ∉ trim s := by simpa using h1
    have hm2 : '.' ∉ trim s := by simpa using h2
    rw [ced_cases, hne]
    simp [h1, h2, hm1, hm2]
  · intro s h1 _; exact ced_comma h1
  · intro p b hp hb
    exact convertEuropeanFormat_value hp hb
  · intro s h
    have hmem : ',' ∈ trim s := List.count_pos_iff.mp (by omega)
    have h1 : (trim s).contains ',' = true := by simpa using hmem
    rw [ced_comma h1]
    exact convertEuropeanFormat_multi_comma h
  · refine ced_euro_eval (p := toL "1.234.567") (b := toL "89")
      (by decide) (by decide) (by decide) ?_
    have e1 : ofDigits (removeAll '.' (toL "1.234.567")) = 1234567 := by decide
    have e2 : ofDigits (toL "89") = 89 := by decide
    have e3 : (toL "89").length = 2 := by decide
    rw [e1, e2, e3]; norm_num
  · refine ced_euro_eval (p := toL "2396690") (b := toL "38")
      (by decide) (by decide) (by decide) ?_
    have e1 : ofDigits (removeAll '.' (toL "2396690")) = 2396690 := by decide
    have e2 : ofDigits (toL "38") = 38 := by decide
    have e3 : (toL "38").length = 2 := by decide
    rw [e1, e2, e3]; norm_num
  · refine ced_euro_eval (p := toL "1.234") (b := toL "56")
      (by decide) (by decide) (by decide) ?_
    have e1 : ofDigits (removeAll '.' (toL "1.234")) = 1234 := by decide
    have e2 : ofDigits (toL "56") = 56 := by decide
    have e3 : (toL "56").length = 2 := by decide
    rw [e1, e2, e3]; norm_num
  · have hpf : pyFloat (trim (toL "1234.56"))
        = some ((ofDigits (toL "1234") : ℚ)
            + (ofDigits (toL "56") : ℚ) / 10 ^ (toL "56").length) := by
      have hsplitup : trim (toL "1234.56") = toL "1234" ++ '.' :: toL "56" := by
        decide
      rw [hsplitup,
        pyFloat_eq_core_of_digits_dots (by decide),
        pyFloatCore_point (by decide) (by decide)]
    rw [ced_cases, if_neg (by decide), if_neg (by decide), if_neg (by decide),
      if_pos (by decide), hpf]
    have e1 : ofDigits (toL "1234") = 1234 := by decide
    have e2 : ofDigits (toL "56") = 56 := by decide
    have e3 : (toL "56").length = 2 := by decide
    rw [e1, e2, e3]
    norm_num
  · have hpf : pyFloat (trim (toL "1234"))
        = some (ofDigits (toL "1234") : ℚ) := by
      have heq : trim (toL "1234") = toL "1234" := by decide
      rw [heq, pyFloat_eq_core_of_digits_dots (by decide),
        pyFloatCore_digits (by decide)]
    rw [ced_cases, if_neg (by decide), if_neg (by decide), if_neg (by decide),
      if_neg (by decide), if_pos (by decide), hpf]
    have e1 : ofDigits (toL "1234") = 1234 := by decide
    rw [e1]
    norm_num

/-- C1 counterexample: running the spec's three-row scenario through the
actual pipeline — row loop then persistence — commits nothing. All three
rows (row 2 carrying the id of the already committed entity) die in
`_process_row` at the `parse_runtime` `AttributeError`, so the campaigns
list is empty, the persistence loop receives no entities, and rows 1 and 3
are not committed, contrary to the claim. -/
theorem C1_counterexample :
    (processRows claimHeaders [rowW1, rowW2, rowW3] 2).1 = []
    ∧ (processRows claimHeaders [rowW1, rowW2, rowW3] 2).2
      = [(2, RowFailure.attributeErrorParseRuntime),
         (3, RowFailure.attributeErrorParseRuntime),
         (4, RowFailure.attributeErrorParseRuntime)]
    ∧ persistCampaigns refToday [cPrev]
        (processRows claimHeaders [rowW1, rowW2, rowW3] 2).1
      = ([], [], [cPrev]) := by
  exact ⟨by decide, by decide, by decide⟩

/-- C1 (amended): the persistence loop of `upload_campaigns` has the claimed
isolation property at its own boundary — a persistence failure never rolls
back a committed entity (the final committed state always extends the
initial one), and for three campaign-data records reaching persistence
where only record 2 duplicates an already-persisted id, records 1 and 3 are
committed while record 2's uniqueness conflict is caught and recorded as an
integrity error for just that record. However, in the current source no
uploaded row ever reaches that loop: `_process_row` can never return
campaign data (its runtime step calls the nonexistent `parse_runtime`
attribute), so the row loop's campaigns list is empty for every batch and
an end-to-end batch commits zero entities. -/
theorem C1_persistence_isolation :
    (∀ (today : Date) (db : List Campaign) (ks : List CampaignKwargs),
      ∃ tail, (persistCampaigns today db ks).2.2 = db ++ tail)
    ∧ (∀ (today : Date) (db : List Campaign) (k1 k2 k3 : CampaignKwargs)
        (c1 c2 c3 : Campaign) (i1 i2 i3 : Str),
        campaignInit today k1 = Except.ok c1 →
        campaignInit today k2 = Except.ok c2 →
        campaignInit today k3 = Except.ok c3 →
        c1.id = some i1 → c2.id = some i2 → c3.id = some i3 →
        db.any (fun x => x.id = some i2) = true →
        db.any (fun x => x.id = some i1) = false →
        db.any (fun x => x.id = some i3) = false →
        i3 ≠ i1 →
        persistCampaigns today db [k1, k2, k3]
          = ([i1, i3],
             [⟨k2.id.getD (toL "unknown"), PersistKind.integrityError⟩],
             db ++ [c1, c3]))
    ∧ (∀ (row : Row) (headers : List (FieldName × ℕ)) (k : CampaignKwargs),
        process_row row headers ≠ Except.ok (some k))
    ∧ (∀ (headers : List (FieldName × ℕ)) (rows : List Row) (n : ℕ)
        (today : Date) (db : List Campaign),
        (processRows headers rows n).1 = []
        ∧ persistCampaigns today db (processRows headers rows n).1
          = ([], [], db)) := by
  refine ⟨fun today ks db => persistCampaigns_preserves today db ks, ?_,
    process_row_never_some, ?_⟩
  · intro today db k1 k2 k3 c1 c2 c3 i1 i2 i3 h1 h2 h3 hid1 hid2 hid3
      hdup hf1 hf3 hne
    have e1 : insertCampaign db c1 = some (db ++ [c1]) :=
      insertCampaign_fresh hid1 hf1
    have hdup2 : (db ++ [c1]).any (fun x => x.id = some i2) = true := by
      rw [List.any_append, hdup]
      rfl
    have e2 : insertCampaign (db ++ [c1]) c2 = none :=
      insertCampaign_dup hid2 hdup2
    have hone : ([c1].any (fun x => x.id = some i3)) = false := by
      simp [hid1]
      exact fun hh => hne hh.symm
    have hf3' : (db ++ [c1]).any (fun x => x.id = some i3) = false := by
      rw [List.any_append, hf3, hone]
      rfl
    have e3 : insertCampaign (db ++ [c1]) c3 = some (db ++ [c1] ++ [c3]) :=
      insertCampaign_fresh hid3 hf3'
    simp only [persistCampaigns, h1, e1, h2, e2, h3, e3, hid1, hid3,
      Option.getD_some]
    simp
  · intro headers rows n today db
    have hc := processRows_no_campaigns headers rows n
    exact ⟨hc, by rw [hc]; rfl⟩

/-- C2 counterexample: processing the spec's end-to-end row does not create
an entity; it fails at the impression-goal conversion because "500.000"
contains a separator, which the digits-only rule rejects. -/
theorem C2_counterexample :
    process_row claimRow claimHeaders
      = Except.error (RowFailure.dataConversionFailed
          (ConvErr.dataValidation ValCtx.integerFormatValidation))
    ∧ (process_row claimRow claimHeaders).isOk = false := by
  exact ⟨by decide, by decide⟩

/-- C2 (amended): ingesting the scenario row yields no created entity — the
impression-goal string "500.000" is rejected by the digits-only rule (in
line with §4.1), so the row is reported as a data-conversion row error.
Even with the separator-free goal "500000" the row still fails, because the
processor's runtime step calls `parse_runtime` on the parser object, an
attribute `RuntimeParser` does not have. The remaining per-field conversions
of the scenario each succeed on their own: goal "500000" → 500000, budget
"1.500,75" → 1500.75, unit cost "3,25" → 3.25, runtime "ASAP-31.12.2025" →
(no start, end 2025-12-31), and classification of "Not set" → campaign. -/
theorem C2_end_to_end_scenario :
    process_row claimRow claimHeaders
      = Except.error (RowFailure.dataConversionFailed
          (ConvErr.dataValidation ValCtx.integerFormatValidation))
    ∧ convert_impression_goal (toL "500.000")
      = Except.error (ConvErr.dataValidation ValCtx.integerFormatValidation)
    ∧ convert_impression_goal (toL "500000") = Except.ok 500000
    ∧ process_row fixedGoalRow claimHeaders
      = Except.error RowFailure.attributeErrorParseRuntime
    ∧ convert_european_decimal (toL "1.500,75") = Except.ok (1500.75 : ℚ)
    ∧ convert_european_decimal (toL "3,25") = Except.ok (3.25 : ℚ)
    ∧ (∀ t : Date, RuntimeParser.parse (toL "ASAP-31.12.2025") t
      = Except.ok ⟨none, ⟨2025, 12, 31⟩, dateLeB t ⟨2025, 12, 31⟩⟩)
    ∧ (classify (PyVal.str (toL "Not set"))).map (fun r => r.campaign_type)
      = Except.ok CampaignType.campaign := by
  refine ⟨by decide, by decide, by decide, by decide, ?_, ?_, fun t => rfl,
    by decide⟩
  · refine ced_euro_eval (p := toL "1.500") (b := toL "75")
      (by decide) (by decide) (by decide) ?_
    have e1 : ofDigits (removeAll '.' (toL "1.500")) = 1500 := by decide
    have e2 : ofDigits (toL "75") = 75 := by decide
    have e3 : (toL "75").length = 2 := by decide
    rw [e1, e2, e3]; norm_num
  · refine ced_euro_eval (p := toL "3") (b := toL "25")
      (by decide) (by decide) (by decide) ?_
    have e1 : ofDigits (removeAll '.' (toL "3")) = 3 := by decide
    have e2 : ofDigits (toL "25") = 25 := by decide
    have e3 : (toL "25").length = 2 := by decide
    rw [e1, e2, e3]; norm_num

/-- C9: the claim that entity creation fails for every non-positive
`unitCost` is contradicted by the code: the constructor's positivity branch
checks the typo key `cmp_eur`, so a non-positive value supplied under the
correct `cpm_eur` key is accepted and the entity is created with
`cpm_eur = 0`. The budget check and the typo-key check do reject
non-positive values, as the repository's own characterization test
(`test_campaign_constructor_refactoring.py`, "Zero CPM") expects for
`cpm_eur` as well. -/
theorem C9_positive_financials :
    (campaignInit refToday kwCpmZero).isOk = true
    ∧ (campaignInit refToday kwCpmZero).toOption.map (fun c => c.cpm_eur)
      = some (some 0)
    ∧ campaignInit refToday kwBudgetNeg
      = Except.error InitErr.budgetNotPositive
    ∧ campaignInit refToday kwCmpZero
      = Except.error InitErr.cpmNotPositive := by
  exact ⟨by decide, by decide, by decide, by decide⟩

/-- C5: `parse("ASAP-30.06.2025")` yields no start date and end 2025-06-30;
`parse("07.07.2025-24.07.2025")` yields start 2025-07-07 and end 2025-07-24;
`parse("24.07.2025-07.07.2025")` fails with the business-rule error; and in
general every range-form input whose end date is not strictly after its
start date (equality included) fails with that business-rule error. -/
theorem C5_runtime_parse_examples :
    (∀ t : Date, RuntimeParser.parse (toL "ASAP-30.06.2025") t
      = Except.ok ⟨none, ⟨2025, 6, 30⟩, dateLeB t ⟨2025, 6, 30⟩⟩)
    ∧ (∀ t : Date, RuntimeParser.parse (toL "07.07.2025-24.07.2025") t
      = Except.ok ⟨some ⟨2025, 7, 7⟩, ⟨2025, 7, 24⟩, dateLeB t ⟨2025, 7, 24⟩⟩)
    ∧ (∀ t : Date, RuntimeParser.parse (toL "24.07.2025-07.07.2025") t
      = Except.error (RtErr.endNotAfterStart ⟨2025, 7, 24⟩ ⟨2025, 7, 7⟩))
    ∧ (∀ (s : Str) (t : Date) (dmys : (ℕ × ℕ × ℕ) × (ℕ × ℕ × ℕ)) (D1 D2 : Date),
        matchStandard (trim s) = some dmys →
        createDate dmys.1.1 dmys.1.2.1 dmys.1.2.2 = some D1 →
        createDate dmys.2.1 dmys.2.2.1 dmys.2.2.2 = some D2 →
        dateLeB D2 D1 = true →
        RuntimeParser.parse s t = Except.error (RtErr.endNotAfterStart D1 D2)) := by
  refine ⟨fun t => rfl, fun t => rfl, fun t => rfl, ?_⟩
  intro s t dmys D1 D2 hS h1 h2 hle
  rw [parse_standard_eq hS]
  unfold parseStandardFormat
  rw [h1, h2]
  simp [hle]
  rfl

/-- C6 counterexample: the whitespace-only/empty input matches neither
surface form, yet its error is the empty-runtime `RuntimeParsingError`,
which does not name the two accepted patterns. -/
theorem C6_counterexample :
    RuntimeParser.parse (toL "") ⟨2025, 1, 1⟩ = Except.error RtErr.emptyRuntime
    ∧ RtErr.emptyRuntime ≠ RtErr.invalidFormat expectedPatterns := by
  exact ⟨rfl, by decide⟩

/-- C6 (amended): every input whose trimmed form is nonempty and matches
neither the ASAP nor the range surface form fails with a runtime-format
error naming both accepted patterns; an input that is empty after trimming
also fails with a runtime-format error, but one that reports emptiness
instead of naming the patterns; and an input matching one of the forms whose
date digits are calendar-invalid fails with a runtime-format error wrapping
the offending date digits. -/
theorem C6_runtime_error_taxonomy :
    (∀ (s : Str) (t : Date), (trim s).isEmpty = false →
        matchAsap (trim s) = none → matchStandard (trim s) = none →
        RuntimeParser.parse s t
          = Except.error (RtErr.invalidFormat expectedPatterns))
    ∧ (RtErr.invalidFormat expectedPatterns).isFormatError = true
    ∧ (∀ (s : Str) (t : Date), (trim s).isEmpty = true →
        RuntimeParser.parse s t = Except.error RtErr.emptyRuntime)
    ∧ RtErr.emptyRuntime.isFormatError = true
    ∧ RtErr.emptyRuntime ≠ RtErr.invalidFormat expectedPatterns
    ∧ (∀ (s : Str) (t : Date) (dmy : ℕ × ℕ × ℕ),
        matchAsap (trim s) = some dmy →
        createDate dmy.1 dmy.2.1 dmy.2.2 = none →
        RuntimeParser.parse s t = Except.error (RtErr.invalidAsapDate dmy)
          ∧ (RtErr.invalidAsapDate dmy).isFormatError = true)
    ∧ (∀ (s : Str) (t : Date) (dmys : (ℕ × ℕ × ℕ) × (ℕ × ℕ × ℕ)),
        matchStandard (trim s) = some dmys →
        (createDate dmys.1.1 dmys.1.2.1 dmys.1.2.2 = none
          ∨ createDate dmys.2.1 dmys.2.2.1 dmys.2.2.2 = none) →
        RuntimeParser.parse s t = Except.error (RtErr.invalidStandardDate dmys)
          ∧ (RtErr.invalidStandardDate dmys).isFormatError = true) := by
  refine ⟨?_, rfl, ?_, rfl, by decide, ?_, ?_⟩
  · intro s t hne hA hS
    exact parse_no_match hne hA hS t
  · intro s t he
    unfold RuntimeParser.parse
    rw [he]
    rfl
  · intro s t dmy hA hcd
    refine ⟨?_, rfl⟩
    rw [parse_asap_eq hA]
    unfold parseAsapFormat
    rw [hcd]
    rfl
  · intro s t dmys hS hcd
    refine ⟨?_, rfl⟩
    rw [parse_standard_eq hS]
    unfold parseStandardFormat
    rcases hcd with hcd | hcd
    · rw [hcd]
      rfl
    · rw [hcd]
      cases hc1 : createDate dmys.1.1 dmys.1.2.1 dmys.1.2.2 <;> rfl

/-- C8: for every successfully parsed runtime and reference date, the
parser's activity flag is `end ≥ reference` (an interval ending exactly on
the reference date counts as active) whereas the Campaign entity's
`_calculate_is_running` is `end > reference` (a campaign ending on the
reference date is not active); the two conventions differ exactly at
`end = reference`. -/
theorem C8_activity_boundary :
    ∀ (s : Str) (t : Date) (r : ParseResult),
      RuntimeParser.parse s t = Except.ok r →
      r.is_running = dateLeB t r.end_date
      ∧ calculate_is_running (some r.end_date) t = dateLtB t r.end_date
      ∧ (r.end_date = t →
          r.is_running = true ∧ calculate_is_running (some r.end_date) t = false)
      ∧ ((r.is_running ≠ calculate_is_running (some r.end_date) t)
          ↔ r.end_date = t) := by
  intro s t r h
  have hrun := parse_ok_is_running h
  refine ⟨hrun, rfl, ?_, ?_⟩
  · intro he
    constructor
    · rw [hrun, he, dateLeB_refl]
    · show dateLtB t r.end_date = false
      rw [he, dateLtB_irrefl]
  · rw [hrun]
    show (dateLeB t r.end_date ≠ dateLtB t r.end_date) ↔ r.end_date = t
    exact dateLeB_ne_dateLtB_iff t r.end_date

/-- C4: `convert_impression_goal` succeeds exactly on strings whose trimmed
form is a nonempty run of digits with value in `[1, 2_000_000_000]`,
returning that value; non-digit input fails with a `DataValidationError`
while digit-only out-of-range input (such as "0" or "3000000000") fails with
a `BusinessRuleError`, a distinct error category. -/
theorem C4_impression_goal_characterization :
    (∀ s : Str,
      ((convert_impression_goal s).isOk = true ↔
        trim s ≠ [] ∧ (trim s).all Char.isDigit = true
          ∧ 1 ≤ ofDigits (trim s) ∧ ofDigits (trim s) ≤ 2000000000)
      ∧ (∀ v, convert_impression_goal s = Except.ok v → v = ofDigits (trim s))
      ∧ (trim s ≠ [] → ¬(trim s).all Char.isDigit = true →
          convert_impression_goal s
            = Except.error (ConvErr.dataValidation ValCtx.integerFormatValidation))
      ∧ (trim s ≠ [] → (trim s).all Char.isDigit = true →
          ofDigits (trim s) < 1 →
          convert_impression_goal s
            = Except.error (ConvErr.businessRule BizRule.impressionGoalMinimum))
      ∧ (trim s ≠ [] → (trim s).all Char.isDigit = true →
          2000000000 < ofDigits (trim s) →
          convert_impression_goal s
            = Except.error (ConvErr.businessRule BizRule.impressionGoalMaximum)))
    ∧ convert_impression_goal (toL "0")
        = Except.error (ConvErr.businessRule BizRule.impressionGoalMinimum)
    ∧ convert_impression_goal (toL "3000000000")
        = Except.error (ConvErr.businessRule BizRule.impressionGoalMaximum)
    ∧ (∀ (c : ValCtx) (r : BizRule),
        ConvErr.dataValidation c ≠ ConvErr.businessRule r) := by
  refine ⟨?_, by decide, by decide, fun c r h => ConvErr.noConfusion h⟩
  intro s
  have hc : convert_impression_goal s =
      if (trim s).isEmpty then
        Except.error (ConvErr.dataValidation ValCtx.emptyImpressionGoal)
      else if !pyIsDigit (trim s) then
        Except.error (ConvErr.dataValidation ValCtx.integerFormatValidation)
      else if ofDigits (trim s) < MIN_IMPRESSION_GOAL then
        Except.error (ConvErr.businessRule BizRule.impressionGoalMinimum)
      else if ofDigits (trim s) > MAX_IMPRESSION_GOAL then
        Except.error (ConvErr.businessRule BizRule.impressionGoalMaximum)
      else Except.ok (ofDigits (trim s)) := rfl
  by_cases he : (trim s).isEmpty
  · have he' : trim s = [] := by simpa using he
    have hE : convert_impression_goal s
        = Except.error (ConvErr.dataValidation ValCtx.emptyImpressionGoal) := by
      rw [hc]; simp [he]
    refine ⟨?_, ?_, ?_, ?_, ?_⟩
    · rw [hE]
      simp only [Except.isOk, Except.toBool, Bool.false_eq_true, false_iff]
      rintro ⟨hne, -, -⟩; exact hne he'
    · intro v h; rw [hE] at h; exact absurd h (by simp)
    · intro h _; exact absurd he' h
    · intro h _ _; exact absurd he' h
    · intro h _ _; exact absurd he' h
  · have he' : trim s ≠ [] := by simpa using he
    by_cases hd : (trim s).all Char.isDigit
    · have hpd : pyIsDigit (trim s) = true := by
        have : (trim s).isEmpty = false := by simpa using he
        simp [pyIsDigit, this, hd]
      by_cases hlo : ofDigits (trim s) < MIN_IMPRESSION_GOAL
      · have hlo1 : ofDigits (trim s) < 1 := hlo
        have hE : convert_impression_goal s
            = Except.error (ConvErr.businessRule BizRule.impressionGoalMinimum) := by
          rw [hc]; simp [he, hpd, hlo]
        refine ⟨?_, ?_, ?_, ?_, ?_⟩
        · rw [hE]
          simp only [Except.isOk, Except.toBool, Bool.false_eq_true, false_iff]
          rintro ⟨-, -, h1, -⟩; omega
        · intro v h; rw [hE] at h; exact absurd h (by simp)
        · intro _ hnd; exact absurd hd hnd
        · intro _ _ _; exact hE
        · intro _ _ hhi2; omega
      · have hlo1 : ¬ofDigits (trim s) < 1 := hlo
        by_cases hhi : ofDigits (trim s) > MAX_IMPRESSION_GOAL
        · have hhi1 : 2000000000 < ofDigits (trim s) := hhi
          have hE : convert_impression_goal s
              = Except.error (ConvErr.businessRule BizRule.impressionGoalMaximum) := by
            rw [hc]; simp [he, hpd, hlo, hhi]
          refine ⟨?_, ?_, ?_, ?_, ?_⟩
          · rw [hE]
            simp only [Except.isOk, Except.toBool, Bool.false_eq_true, false_iff]
            rintro ⟨-, -, -, h2⟩; omega
          · intro v h; rw [hE] at h; exact absurd h (by simp)
          · intro _ hnd; exact absurd hd hnd
          · intro _ _ hl; omega
          · intro _ _ _; exact hE
        · have hhi1 : ¬2000000000 < ofDigits (trim s) := hhi
          have hE : convert_impression_goal s
              = Except.ok (ofDigits (trim s)) := by
            rw [hc]; simp [he, hpd, hlo, hhi]
          refine ⟨?_, ?_, ?_, ?_, ?_⟩
          · rw [hE]
            simp only [Except.isOk, Except.toBool, true_iff]
            exact ⟨he', hd, by omega, by omega⟩
          · intro v h; rw [hE] at h; exact (Except.ok.inj h).symm
          · intro _ hnd; exact absurd hd hnd
          · intro _ _ hl; omega
          · intro _ _ hh; omega
    · have hd' : (trim s).all Char.isDigit = false := by simpa using hd
      have hpd : pyIsDigit (trim s) = false := by simp [pyIsDigit, hd']
      have hE : convert_impression_goal s
          = Except.error (ConvErr.dataValidation ValCtx.integerFormatValidation) := by
        rw [hc]; simp [he, hpd]
      refine ⟨?_, ?_, ?_, ?_, ?_⟩
      · rw [hE]
        simp only [Except.isOk, Except.toBool, Bool.false_eq_true, false_iff]
        rintro ⟨-, hall, -, -⟩; exact hd hall
      · intro v h; rw [hE] at h; exact absurd h (by simp)
      · intro _ _; exact hE
      · intro _ hdd; exact absurd hdd hd
      · intro _ hdd; exact absurd hdd hd

/-! ## Witnesses -/

/-- Witness for C1: with one committed entity and the three scenario rows,
rows 1 and 3 commit and row 2 is recorded as an integrity error. -/
theorem C1_persistence_isolation_witness :
    persistCampaigns refToday [cPrev] [k1w, k2w, k3w]
      = ([uuidA, uuidC],
         [⟨uuidB, PersistKind.integrityError⟩],
         [cPrev] ++ [c1w, c3w]) :=
  C1_persistence_isolation.2.1 refToday [cPrev] k1w k2w k3w c1w c2w c3w
    uuidA uuidB uuidC
    (by decide) (by decide) (by decide) (by decide) (by decide) (by decide)
    (by decide) (by decide) (by decide) (by decide)

/-- Witness for C3: a string with multiple commas is rejected with the
European-decimal format error. -/
theorem C3_convert_decimal_rules_witness :
    convert_european_decimal (toL "1,2,3")
      = Except.error (ConvErr.dataValidation ValCtx.europeanDecimalFormat) :=
  C3_convert_decimal_rules.2.2.2.2.2.2.1 (toL "1,2,3") (by decide)

/-- Witness for C4: a non-digit string fails with the data-validation
format error. -/
theorem C4_impression_goal_witness :
    convert_impression_goal (toL "12a")
      = Except.error (ConvErr.dataValidation ValCtx.integerFormatValidation) :=
  (C4_impression_goal_characterization.1 (toL "12a")).2.2.1
    (by decide) (by decide)

/-- Witness for C5: a range with equal start and end dates fails with the
end-not-after-start business-rule error. -/
theorem C5_runtime_parse_examples_witness :
    RuntimeParser.parse (toL "01.05.2025-01.05.2025") refToday
      = Except.error
          (RtErr.endNotAfterStart ⟨2025, 5, 1⟩ ⟨2025, 5, 1⟩) :=
  C5_runtime_parse_examples.2.2.2 (toL "01.05.2025-01.05.2025") refToday
    ((1, 5, 2025), (1, 5, 2025)) ⟨2025, 5, 1⟩ ⟨2025, 5, 1⟩
    (by decide) (by decide) (by decide) (by decide)

/-- Witness for C6: an input matching neither surface form fails with the
format error naming both accepted patterns. -/
theorem C6_runtime_error_taxonomy_witness :
    RuntimeParser.parse (toL "hello") refToday
      = Except.error (RtErr.invalidFormat expectedPatterns) :=
  C6_runtime_error_taxonomy.1 (toL "hello") refToday
    (by decide) (by decide) (by decide)

/-- Witness for C8: at the boundary where the interval ends exactly on the
reference date, the parser flag and the entity flag disagree. -/
theorem C8_activity_boundary_witness :
    (⟨none, ⟨2025, 12, 31⟩, true⟩ : ParseResult).is_running
      ≠ calculate_is_running (some (⟨2025, 12, 31⟩ : Date)) ⟨2025, 12, 31⟩ :=
  (C8_activity_boundary (toL "ASAP-31.12.2025") ⟨2025, 12, 31⟩
    ⟨none, ⟨2025, 12, 31⟩, true⟩ (by decide)).2.2.2.mpr rfl

end PPV
